import Mathlib

/-!
Verification of the data model and access-control policy layer of the
smart-class-flow repository, shallowly embedded from
`supabase/migrations/20250930032716_ef6eccd5-1ab1-4950-8751-8be211d1e38b.sql`.

Modelling conventions:
* UUIDs are modelled as natural numbers (`RowId`, `UserId`).
* `TIMESTAMP WITH TIME ZONE` and `TIME` values are natural numbers.
* Nullable SQL columns are `Option` fields; `NOT NULL` columns are plain.
* A SQL `CHECK` constraint evaluates under three-valued logic: a `NULL`
  operand makes the comparison `UNKNOWN`, which does **not** violate the
  constraint, so the corresponding Lean predicate returns `true` on `none`.
* Row-level-security policies are per-table, per-operation boolean
  predicates; with RLS enabled an operation is permitted iff at least one
  permissive policy covering that operation evaluates true (default deny).
-/

namespace SmartClassFlow

abbrev RowId := Nat
abbrev UserId := Nat
abbrev Timestamp := Nat
abbrev TimeOfDay := Nat

/-- The SQL enum `user_role`: `CREATE TYPE user_role AS ENUM ('student', 'faculty', 'admin')`. -/
inductive UserRole
  | student
  | faculty
  | admin
deriving DecidableEq, Repr

/-- A row of the external `auth.users` table: the authenticated identity.
`raw_name` models `raw_user_meta_data->>'name'` (NULL when signup metadata
supplies no name). -/
structure AuthUser where
  id : UserId
  email : String
  raw_name : Option String
deriving DecidableEq, Repr

/-- A row of `public.profiles`. -/
structure Profile where
  id : RowId
  user_id : UserId
  name : String
  email : String
  role : UserRole
  department : Option String
  phone : Option String
  created_at : Timestamp
  updated_at : Timestamp
deriving DecidableEq, Repr

/-- A row of `public.classrooms`. -/
structure Classroom where
  id : RowId
  room_name : String
  capacity : Int
  equipment : Option (List String)
  location : String
  availability_status : Option Bool
  remarks : Option String
  created_at : Timestamp
  updated_at : Timestamp
deriving DecidableEq, Repr

/-- A row of `public.courses`. `credits` has `DEFAULT 3` but no `NOT NULL`,
so it is nullable. -/
structure Course where
  id : RowId
  course_code : String
  course_name : String
  department : String
  credits : Option Int
  description : Option String
  created_at : Timestamp
  updated_at : Timestamp
deriving DecidableEq, Repr

/-- A row of `public.timetable`. -/
structure TimetableEntry where
  id : RowId
  course_id : RowId
  faculty_id : RowId
  room_id : RowId
  day_of_week : String
  start_time : TimeOfDay
  end_time : TimeOfDay
  semester : String
  academic_year : String
  created_at : Timestamp
  updated_at : Timestamp
deriving DecidableEq, Repr

/-- A row of `public.feedback`. `status` has `DEFAULT 'pending'` but no
`NOT NULL`, so it is nullable. -/
structure Feedback where
  id : RowId
  user_id : UserId
  title : String
  message : String
  status : Option String
  created_at : Timestamp
  updated_at : Timestamp
deriving DecidableEq, Repr

/-! ## CHECK constraints -/

/-- The constraint `CHECK (capacity > 0)` on `classrooms`. -/
def classroomCheck (c : Classroom) : Bool :=
  c.capacity > 0

/-- The constraint `CHECK (credits > 0)` on `courses`: `credits` is nullable, and a NULL
operand yields `UNKNOWN`, which does not violate the constraint. -/
def courseCheck (c : Course) : Bool :=
  match c.credits with
  | none => true
  | some k => k > 0

/-- The constraint `CHECK (day_of_week IN ('Monday', ..., 'Sunday'))` on `timetable`. -/
def dayOfWeekCheck (d : String) : Bool :=
  ["Monday", "Tuesday", "Wednesday", "Thursday", "Friday", "Saturday",
    "Sunday"].contains d

/-- The constraint `valid_time_range CHECK (end_time > start_time)` together with
the `day_of_week` check on `timetable` (`start_time`/`end_time` are
`NOT NULL`). -/
def timetableCheck (t : TimetableEntry) : Bool :=
  dayOfWeekCheck t.day_of_week && t.end_time > t.start_time

/-- The constraint `CHECK (status IN ('pending', 'reviewed', 'resolved'))` on `feedback`:
`status` is nullable and NULL does not violate the constraint. -/
def feedbackCheck (f : Feedback) : Bool :=
  match f.status with
  | none => true
  | some s => ["pending", "reviewed", "resolved"].contains s

/-! ## Database state -/

/-- The database state: the five public tables plus the external
`auth.users` table that `profiles.user_id` and `feedback.user_id`
reference. -/
structure DBState where
  authUsers : List AuthUser
  profiles : List Profile
  classrooms : List Classroom
  courses : List Course
  timetable : List TimetableEntry
  feedback : List Feedback
deriving DecidableEq, Repr

/-! ## Row-level-security policies -/

/-- The four SQL operation kinds that policies gate. -/
inductive Op
  | select
  | insert
  | update
  | delete
deriving DecidableEq, Repr

/-- The correlated subquery
`EXISTS (SELECT 1 FROM public.profiles WHERE user_id = auth.uid() AND role = 'admin')`
used by the classrooms/courses/feedback policies. -/
def isAdmin (db : DBState) (uid : UserId) : Bool :=
  db.profiles.any (fun p => p.user_id == uid && p.role == UserRole.admin)

/-- The correlated subquery
`EXISTS (SELECT 1 FROM public.profiles WHERE user_id = auth.uid() AND role IN ('admin', 'faculty'))`
used by the timetable policy. -/
def isAdminOrFaculty (db : DBState) (uid : UserId) : Bool :=
  db.profiles.any (fun p =>
    p.user_id == uid &&
      (p.role == UserRole.admin || p.role == UserRole.faculty))

/-- Policies on `public.profiles`:
"Users can view all profiles" (SELECT, `true`),
"Users can update their own profile" (UPDATE, `auth.uid() = user_id`),
"Users can insert their own profile" (INSERT, `auth.uid() = user_id`).
No DELETE policy exists, so DELETE is denied by default. -/
def profilesAllowed (_db : DBState) (uid : UserId) (op : Op) (row : Profile) :
    Bool :=
  match op with
  | Op.select => true
  | Op.insert => uid == row.user_id
  | Op.update => uid == row.user_id
  | Op.delete => false

/-- Policies on `public.classrooms`:
"Anyone can view classrooms" (SELECT, `true`), OR-ed with
"Admins can manage classrooms" (FOR ALL, admin subquery) which also covers
SELECT. -/
def classroomsAllowed (db : DBState) (uid : UserId) (op : Op)
    (_row : Classroom) : Bool :=
  match op with
  | Op.select => true || isAdmin db uid
  | Op.insert => isAdmin db uid
  | Op.update => isAdmin db uid
  | Op.delete => isAdmin db uid

/-- Policies on `public.courses`:
"Anyone can view courses" (SELECT, `true`), OR-ed with
"Admins can manage courses" (FOR ALL, admin subquery). -/
def coursesAllowed (db : DBState) (uid : UserId) (op : Op) (_row : Course) :
    Bool :=
  match op with
  | Op.select => true || isAdmin db uid
  | Op.insert => isAdmin db uid
  | Op.update => isAdmin db uid
  | Op.delete => isAdmin db uid

/-- Policies on `public.timetable`:
"Anyone can view timetable" (SELECT, `true`), OR-ed with
"Admins and faculty can manage timetable" (FOR ALL, admin-or-faculty
subquery). -/
def timetableAllowed (db : DBState) (uid : UserId) (op : Op)
    (_row : TimetableEntry) : Bool :=
  match op with
  | Op.select => true || isAdminOrFaculty db uid
  | Op.insert => isAdminOrFaculty db uid
  | Op.update => isAdminOrFaculty db uid
  | Op.delete => isAdminOrFaculty db uid

/-- Policies on `public.feedback`:
"Users can view their own feedback" (SELECT, `auth.uid() = user_id`),
"Admins can view all feedback" (SELECT, admin subquery) — the two SELECT
policies are OR-ed — and "Users can create feedback" (INSERT,
`auth.uid() = user_id`). No UPDATE or DELETE policy exists, so those
operations are denied by default. -/
def feedbackAllowed (db : DBState) (uid : UserId) (op : Op) (row : Feedback) :
    Bool :=
  match op with
  | Op.select => uid == row.user_id || isAdmin db uid
  | Op.insert => uid == row.user_id
  | Op.update => false
  | Op.delete => false

/-! ## Trigger functions -/

/-- The function `handle_new_user`: the profile row it inserts for a freshly created
auth user — `COALESCE(NEW.raw_user_meta_data->>'name', NEW.email)` for the
name, the identity's email, role `'student'`; the remaining columns take
their declared defaults (`gen_random_uuid()` is modelled by the supplied
fresh `pid` and `NOW()` by `now`). -/
def newUserProfile (u : AuthUser) (pid : RowId) (now : Timestamp) : Profile :=
  { id := pid
    user_id := u.id
    name := u.raw_name.getD u.email
    email := u.email
    role := UserRole.student
    department := none
    phone := none
    created_at := now
    updated_at := now }

/-- The function `update_updated_at_column` as attached by trigger
`update_profiles_updated_at` (BEFORE UPDATE: `NEW.updated_at = NOW()`). -/
def update_profiles_updated_at (new : Profile) (now : Timestamp) : Profile :=
  { new with updated_at := now }

/-- The function `update_updated_at_column` as attached by trigger
`update_classrooms_updated_at`. -/
def update_classrooms_updated_at (new : Classroom) (now : Timestamp) :
    Classroom :=
  { new with updated_at := now }

/-- The function `update_updated_at_column` as attached by trigger
`update_courses_updated_at`. -/
def update_courses_updated_at (new : Course) (now : Timestamp) : Course :=
  { new with updated_at := now }

/-- The function `update_updated_at_column` as attached by trigger
`update_timetable_updated_at`. -/
def update_timetable_updated_at (new : TimetableEntry) (now : Timestamp) :
    TimetableEntry :=
  { new with updated_at := now }

/-- The function `update_updated_at_column` as attached by trigger
`update_feedback_updated_at`. -/
def update_feedback_updated_at (new : Feedback) (now : Timestamp) : Feedback :=
  { new with updated_at := now }

/-! ## Insert operations

Each insert enforces the table's PRIMARY KEY, UNIQUE, FOREIGN KEY and CHECK
constraints; a violation rejects the write atomically (`Except.error`), so
the state is unchanged. -/

def insertProfile (db : DBState) (p : Profile) : Except String DBState :=
  if db.profiles.any (fun q => q.id == p.id) then
    Except.error "profiles_pkey"
  else if db.profiles.any (fun q => q.user_id == p.user_id) then
    Except.error "profiles_user_id_key"
  else if !db.authUsers.any (fun u => u.id == p.user_id) then
    Except.error "profiles_user_id_fkey"
  else
    Except.ok { db with profiles := db.profiles ++ [p] }

def insertClassroom (db : DBState) (c : Classroom) : Except String DBState :=
  if db.classrooms.any (fun d => d.id == c.id) then
    Except.error "classrooms_pkey"
  else if db.classrooms.any (fun d => d.room_name == c.room_name) then
    Except.error "classrooms_room_name_key"
  else if !classroomCheck c then
    Except.error "classrooms_capacity_check"
  else
    Except.ok { db with classrooms := db.classrooms ++ [c] }

def insertCourse (db : DBState) (c : Course) : Except String DBState :=
  if db.courses.any (fun d => d.id == c.id) then
    Except.error "courses_pkey"
  else if db.courses.any (fun d => d.course_code == c.course_code) then
    Except.error "courses_course_code_key"
  else if !courseCheck c then
    Except.error "courses_credits_check"
  else
    Except.ok { db with courses := db.courses ++ [c] }

def insertTimetable (db : DBState) (t : TimetableEntry) :
    Except String DBState :=
  if db.timetable.any (fun s => s.id == t.id) then
    Except.error "timetable_pkey"
  else if !db.courses.any (fun c => c.id == t.course_id) then
    Except.error "timetable_course_id_fkey"
  else if !db.profiles.any (fun p => p.id == t.faculty_id) then
    Except.error "timetable_faculty_id_fkey"
  else if !db.classrooms.any (fun r => r.id == t.room_id) then
    Except.error "timetable_room_id_fkey"
  else if !timetableCheck t then
    Except.error "valid_time_range"
  else
    Except.ok { db with timetable := db.timetable ++ [t] }

def insertFeedback (db : DBState) (f : Feedback) : Except String DBState :=
  if db.feedback.any (fun g => g.id == f.id) then
    Except.error "feedback_pkey"
  else if !db.authUsers.any (fun u => u.id == f.user_id) then
    Except.error "feedback_user_id_fkey"
  else if !feedbackCheck f then
    Except.error "feedback_status_check"
  else
    Except.ok { db with feedback := db.feedback ++ [f] }

/-- Creating a new identity (`INSERT` into `auth.users`) fires the
`on_auth_user_created` AFTER-INSERT trigger, which runs `handle_new_user`
inside the same transaction: the identity row and the profile row appear
together, or — if the profile insert violates a constraint — the whole
transaction rolls back. -/
def createAuthUser (db : DBState) (u : AuthUser) (pid : RowId)
    (now : Timestamp) : Except String DBState :=
  if db.authUsers.any (fun v => v.id == u.id) then
    Except.error "users_pkey"
  else
    insertProfile { db with authUsers := db.authUsers ++ [u] }
      (newUserProfile u pid now)

/-! ## Update operations

`updateX db rid f now` models `UPDATE x SET ... WHERE id = rid`: `f` is the
SET clause applied to the existing row, after which the BEFORE-UPDATE
trigger overwrites `updated_at` with `NOW()` (modelled by `now`).
Constraints are re-checked; referenced primary keys may not change while
referencing rows exist (`ON UPDATE NO ACTION`). An `UPDATE` matching no
row succeeds vacuously. -/

def updateProfile (db : DBState) (rid : RowId) (f : Profile → Profile)
    (now : Timestamp) : Except String DBState :=
  match db.profiles.find? (fun p => p.id == rid) with
  | none => Except.ok db
  | some old =>
    if !((update_profiles_updated_at (f old) now).id == old.id) &&
        db.timetable.any (fun t => t.faculty_id == old.id) then
      Except.error "timetable_faculty_id_fkey"
    else if (db.profiles.filter (fun p => !(p.id == rid))).any
        (fun p => p.id == (update_profiles_updated_at (f old) now).id) then
      Except.error "profiles_pkey"
    else if (db.profiles.filter (fun p => !(p.id == rid))).any
        (fun p =>
          p.user_id == (update_profiles_updated_at (f old) now).user_id) then
      Except.error "profiles_user_id_key"
    else if !db.authUsers.any
        (fun u => u.id == (update_profiles_updated_at (f old) now).user_id) then
      Except.error "profiles_user_id_fkey"
    else
      Except.ok { db with
        profiles := db.profiles.map (fun p =>
          if p.id == rid then update_profiles_updated_at (f old) now else p) }

def updateClassroom (db : DBState) (rid : RowId) (f : Classroom → Classroom)
    (now : Timestamp) : Except String DBState :=
  match db.classrooms.find? (fun c => c.id == rid) with
  | none => Except.ok db
  | some old =>
    if !((update_classrooms_updated_at (f old) now).id == old.id) &&
        db.timetable.any (fun t => t.room_id == old.id) then
      Except.error "timetable_room_id_fkey"
    else if (db.classrooms.filter (fun c => !(c.id == rid))).any
        (fun c => c.id == (update_classrooms_updated_at (f old) now).id) then
      Except.error "classrooms_pkey"
    else if (db.classrooms.filter (fun c => !(c.id == rid))).any
        (fun c =>
          c.room_name ==
            (update_classrooms_updated_at (f old) now).room_name) then
      Except.error "classrooms_room_name_key"
    else if !classroomCheck (update_classrooms_updated_at (f old) now) then
      Except.error "classrooms_capacity_check"
    else
      Except.ok { db with
        classrooms := db.classrooms.map (fun c =>
          if c.id == rid then update_classrooms_updated_at (f old) now
          else c) }

def updateCourse (db : DBState) (rid : RowId) (f : Course → Course)
    (now : Timestamp) : Except String DBState :=
  match db.courses.find? (fun c => c.id == rid) with
  | none => Except.ok db
  | some old =>
    if !((update_courses_updated_at (f old) now).id == old.id) &&
        db.timetable.any (fun t => t.course_id == old.id) then
      Except.error "timetable_course_id_fkey"
    else if (db.courses.filter (fun c => !(c.id == rid))).any
        (fun c => c.id == (update_courses_updated_at (f old) now).id) then
      Except.error "courses_pkey"
    else if (db.courses.filter (fun c => !(c.id == rid))).any
        (fun c =>
          c.course_code ==
            (update_courses_updated_at (f old) now).course_code) then
      Except.error "courses_course_code_key"
    else if !courseCheck (update_courses_updated_at (f old) now) then
      Except.error "courses_credits_check"
    else
      Except.ok { db with
        courses := db.courses.map (fun c =>
          if c.id == rid then update_courses_updated_at (f old) now else c) }

def updateTimetable (db : DBState) (rid : RowId)
    (f : TimetableEntry → TimetableEntry) (now : Timestamp) :
    Except String DBState :=
  match db.timetable.find? (fun t => t.id == rid) with
  | none => Except.ok db
  | some old =>
    if (db.timetable.filter (fun t => !(t.id == rid))).any
        (fun t => t.id == (update_timetable_updated_at (f old) now).id) then
      Except.error "timetable_pkey"
    else if !db.courses.any
        (fun c =>
          c.id == (update_timetable_updated_at (f old) now).course_id) then
      Except.error "timetable_course_id_fkey"
    else if !db.profiles.any
        (fun p =>
          p.id == (update_timetable_updated_at (f old) now).faculty_id) then
      Except.error "timetable_faculty_id_fkey"
    else if !db.classrooms.any
        (fun r =>
          r.id == (update_timetable_updated_at (f old) now).room_id) then
      Except.error "timetable_room_id_fkey"
    else if !timetableCheck (update_timetable_updated_at (f old) now) then
      Except.error "valid_time_range"
    else
      Except.ok { db with
        timetable := db.timetable.map (fun t =>
          if t.id == rid then update_timetable_updated_at (f old) now
          else t) }

def updateFeedback (db : DBState) (rid : RowId) (f : Feedback → Feedback)
    (now : Timestamp) : Except String DBState :=
  match db.feedback.find? (fun g => g.id == rid) with
  | none => Except.ok db
  | some old =>
    if (db.feedback.filter (fun g => !(g.id == rid))).any
        (fun g => g.id == (update_feedback_updated_at (f old) now).id) then
      Except.error "feedback_pkey"
    else if !db.authUsers.any
        (fun u =>
          u.id == (update_feedback_updated_at (f old) now).user_id) then
      Except.error "feedback_user_id_fkey"
    else if !feedbackCheck (update_feedback_updated_at (f old) now) then
      Except.error "feedback_status_check"
    else
      Except.ok { db with
        feedback := db.feedback.map (fun g =>
          if g.id == rid then update_feedback_updated_at (f old) now
          else g) }

/-! ## Delete operations

All foreign keys into `profiles`, `classrooms` and `courses` (and into
`auth.users`) are declared `ON DELETE CASCADE`, so a delete always succeeds
and removes the referencing rows in the same operation. -/

def deleteClassroom (db : DBState) (rid : RowId) : DBState :=
  { db with
    classrooms := db.classrooms.filter (fun c => !(c.id == rid))
    timetable := db.timetable.filter (fun t => !(t.room_id == rid)) }

def deleteCourse (db : DBState) (rid : RowId) : DBState :=
  { db with
    courses := db.courses.filter (fun c => !(c.id == rid))
    timetable := db.timetable.filter (fun t => !(t.course_id == rid)) }

def deleteProfile (db : DBState) (rid : RowId) : DBState :=
  { db with
    profiles := db.profiles.filter (fun p => !(p.id == rid))
    timetable := db.timetable.filter (fun t => !(t.faculty_id == rid)) }

def deleteTimetableEntry (db : DBState) (rid : RowId) : DBState :=
  { db with timetable := db.timetable.filter (fun t => !(t.id == rid)) }

def deleteFeedback (db : DBState) (rid : RowId) : DBState :=
  { db with feedback := db.feedback.filter (fun g => !(g.id == rid)) }

/-- Deleting an auth identity cascades into its profile rows and feedback
rows (`ON DELETE CASCADE` on both `user_id` foreign keys), and the cascade
chains: timetable entries referencing a cascaded-away profile are deleted
too. -/
def deleteAuthUser (db : DBState) (uid : UserId) : DBState :=
  { db with
    authUsers := db.authUsers.filter (fun u => !(u.id == uid))
    profiles := db.profiles.filter (fun p => !(p.user_id == uid))
    feedback := db.feedback.filter (fun g => !(g.user_id == uid))
    timetable := db.timetable.filter (fun t =>
      !((db.profiles.filter (fun p => p.user_id == uid)).any
        (fun p => p.id == t.faculty_id))) }

/-! ## Seed data and initial state

The migration ends with `INSERT INTO public.classrooms ... VALUES` (five
rows) and `INSERT INTO public.courses ... VALUES` (five rows). Generated
UUIDs are modelled by the row ids 1–10 and the migration's `NOW()` by
timestamp 0. -/

def seedClassrooms : List Classroom :=
  [ { id := 1, room_name := "Room A101", capacity := 50,
      equipment := some ["projector", "whiteboard", "air_conditioning"],
      location := "Building A, Floor 1", availability_status := some true,
      remarks := some "Standard classroom with modern amenities",
      created_at := 0, updated_at := 0 },
    { id := 2, room_name := "Room B201", capacity := 30,
      equipment := some ["smart_board", "audio_system", "projector"],
      location := "Building B, Floor 2", availability_status := some true,
      remarks := some "Small seminar room", created_at := 0, updated_at := 0 },
    { id := 3, room_name := "Lab C301", capacity := 25,
      equipment := some ["computers", "projector", "air_conditioning"],
      location := "Building C, Floor 3", availability_status := some true,
      remarks := some "Computer lab", created_at := 0, updated_at := 0 },
    { id := 4, room_name := "Auditorium D001", capacity := 200,
      equipment := some ["sound_system", "projector", "stage", "microphones"],
      location := "Building D, Ground Floor", availability_status := some true,
      remarks := some "Large auditorium for events",
      created_at := 0, updated_at := 0 },
    { id := 5, room_name := "Room A102", capacity := 40,
      equipment := some ["projector", "whiteboard"],
      location := "Building A, Floor 1", availability_status := some false,
      remarks := some "Under maintenance", created_at := 0, updated_at := 0 } ]

def seedCourses : List Course :=
  [ { id := 6, course_code := "CS101",
      course_name := "Introduction to Computer Science",
      department := "Computer Science", credits := some 3,
      description :=
        some "Basic concepts of computer science and programming",
      created_at := 0, updated_at := 0 },
    { id := 7, course_code := "MATH201", course_name := "Calculus II",
      department := "Mathematics", credits := some 4,
      description := some "Advanced calculus concepts and applications",
      created_at := 0, updated_at := 0 },
    { id := 8, course_code := "ENG101", course_name := "English Composition",
      department := "English", credits := some 3,
      description := some "Academic writing and communication skills",
      created_at := 0, updated_at := 0 },
    { id := 9, course_code := "PHYS201", course_name := "Physics II",
      department := "Physics", credits := some 4,
      description := some "Electricity, magnetism, and waves",
      created_at := 0, updated_at := 0 },
    { id := 10, course_code := "BIO101", course_name := "General Biology",
      department := "Biology", credits := some 3,
      description := some "Introduction to biological concepts",
      created_at := 0, updated_at := 0 } ]

/-- The database state right after the migration runs: empty tables except
for the seeded classrooms and courses. -/
def initDB : DBState :=
  { authUsers := []
    profiles := []
    classrooms := seedClassrooms
    courses := seedCourses
    timetable := []
    feedback := [] }

/-! ## Transition system -/

/-- One committed transaction: any of the defined write operations that the
storage engine accepts. Rejected writes (`Except.error`) leave the state
unchanged and hence contribute no step. -/
inductive Step : DBState → DBState → Prop
  | createUser (db : DBState) (u : AuthUser) (pid : RowId) (now : Timestamp)
      (db' : DBState) (h : createAuthUser db u pid now = Except.ok db') :
      Step db db'
  | insProfile (db : DBState) (p : Profile) (db' : DBState)
      (h : insertProfile db p = Except.ok db') : Step db db'
  | insClassroom (db : DBState) (c : Classroom) (db' : DBState)
      (h : insertClassroom db c = Except.ok db') : Step db db'
  | insCourse (db : DBState) (c : Course) (db' : DBState)
      (h : insertCourse db c = Except.ok db') : Step db db'
  | insTimetable (db : DBState) (t : TimetableEntry) (db' : DBState)
      (h : insertTimetable db t = Except.ok db') : Step db db'
  | insFeedback (db : DBState) (f : Feedback) (db' : DBState)
      (h : insertFeedback db f = Except.ok db') : Step db db'
  | updProfile (db : DBState) (rid : RowId) (f : Profile → Profile)
      (now : Timestamp) (db' : DBState)
      (h : updateProfile db rid f now = Except.ok db') : Step db db'
  | updClassroom (db : DBState) (rid : RowId) (f : Classroom → Classroom)
      (now : Timestamp) (db' : DBState)
      (h : updateClassroom db rid f now = Except.ok db') : Step db db'
  | updCourse (db : DBState) (rid : RowId) (f : Course → Course)
      (now : Timestamp) (db' : DBState)
      (h : updateCourse db rid f now = Except.ok db') : Step db db'
  | updTimetable (db : DBState) (rid : RowId)
      (f : TimetableEntry → TimetableEntry) (now : Timestamp) (db' : DBState)
      (h : updateTimetable db rid f now = Except.ok db') : Step db db'
  | updFeedback (db : DBState) (rid : RowId) (f : Feedback → Feedback)
      (now : Timestamp) (db' : DBState)
      (h : updateFeedback db rid f now = Except.ok db') : Step db db'
  | delClassroom (db : DBState) (rid : RowId) : Step db (deleteClassroom db rid)
  | delCourse (db : DBState) (rid : RowId) : Step db (deleteCourse db rid)
  | delProfile (db : DBState) (rid : RowId) : Step db (deleteProfile db rid)
  | delTimetable (db : DBState) (rid : RowId) :
      Step db (deleteTimetableEntry db rid)
  | delFeedback (db : DBState) (rid : RowId) : Step db (deleteFeedback db rid)
  | delAuthUser (db : DBState) (uid : UserId) : Step db (deleteAuthUser db uid)

/-- The states reachable from the migrated database by committed
transactions. -/
inductive Reachable : DBState → Prop
  | init : Reachable initDB
  | step (db db' : DBState) (h : Reachable db) (hs : Step db db') :
      Reachable db'

/-! ## List helper lemmas -/

/-- A list has pairwise-distinct values of `key` (a UNIQUE / PRIMARY KEY
column). -/
abbrev UniqueBy {α β : Type} (key : α → β) (l : List α) : Prop :=
  l.Pairwise (fun a b => key a ≠ key b)

theorem uniqueBy_nil {α β : Type} (key : α → β) : UniqueBy key [] :=
  List.Pairwise.nil

theorem uniqueBy_append_singleton {α β : Type} {key : α → β} {l : List α}
    {a : α} (h : UniqueBy key l) (ha : ∀ x ∈ l, key x ≠ key a) :
    UniqueBy key (l ++ [a]) := by
  unfold UniqueBy at h ⊢
  rw [List.pairwise_append]
  refine ⟨h, List.pairwise_singleton _ _, ?_⟩
  intro x hx b hb
  rw [List.mem_singleton] at hb
  subst hb
  exact ha x hx

theorem uniqueBy_filter {α β : Type} {key : α → β} {l : List α}
    (p : α → Bool) (h : UniqueBy key l) : UniqueBy key (l.filter p) :=
  List.Pairwise.sublist (List.filter_sublist l) h

/-- Replacing the (unique) row whose id is `rid` by `new` keeps a key
column pairwise-distinct, provided no other row shares `new`'s key. -/
theorem uniqueBy_update {α β : Type} {key : α → β} {idk : α → Nat}
    {rid : Nat} {new : α} (l : List α) (hid : UniqueBy idk l)
    (hkey : UniqueBy key l)
    (hnew : ∀ x ∈ l, idk x ≠ rid → key x ≠ key new) :
    UniqueBy key (l.map fun x => if idk x == rid then new else x) := by
  induction l with
  | nil => exact List.Pairwise.nil
  | cons a t ih =>
    rw [List.map_cons]
    have hid' := List.pairwise_cons.mp hid
    have hkey' := List.pairwise_cons.mp hkey
    refine List.pairwise_cons.mpr ⟨?_, ih hid'.2 hkey'.2
      (fun x hx hxr => hnew x (List.mem_cons_of_mem _ hx) hxr)⟩
    intro y hy
    rw [List.mem_map] at hy
    obtain ⟨x, hx, rfl⟩ := hy
    by_cases hax : idk a = rid
    · have hxr : idk x ≠ rid := fun hc => hid'.1 x hx (hax.trans hc.symm)
      simp only [hax, beq_self_eq_true, if_true, beq_eq_false_iff_ne,
        hxr, ne_eq, not_false_eq_true, if_neg, if_false]
      have hbx : (idk x == rid) = false := by
        simp [hxr]
      rw [hbx]
      simp only [Bool.false_eq_true, if_false]
      exact fun hc => hnew x (List.mem_cons_of_mem _ hx) hxr hc.symm
    · have hba : (idk a == rid) = false := by simp [hax]
      rw [hba]
      simp only [Bool.false_eq_true, if_false]
      by_cases hxr : idk x = rid
      · have hbx : (idk x == rid) = true := by simp [hxr]
        rw [hbx]
        simp only [if_true]
        exact hnew a (List.mem_cons_self _ _) hax
      · have hbx : (idk x == rid) = false := by simp [hxr]
        rw [hbx]
        simp only [Bool.false_eq_true, if_false]
        exact hkey'.1 x hx

/-! ## The database invariant -/

/-- The constraint-level invariant maintained by the storage engine: the
PRIMARY KEY and UNIQUE constraints of `profiles`, `classrooms`, `courses`,
the `user_id` foreign key of `profiles`, all CHECK constraints, and the
three foreign keys of `timetable`. -/
structure Inv (db : DBState) : Prop where
  profiles_pk : UniqueBy Profile.id db.profiles
  classrooms_pk : UniqueBy Classroom.id db.classrooms
  courses_pk : UniqueBy Course.id db.courses
  profiles_user_uniq : UniqueBy Profile.user_id db.profiles
  classrooms_name_uniq : UniqueBy Classroom.room_name db.classrooms
  courses_code_uniq : UniqueBy Course.course_code db.courses
  profiles_fk : ∀ p ∈ db.profiles, ∃ u ∈ db.authUsers, u.id = p.user_id
  classrooms_chk : ∀ c ∈ db.classrooms, classroomCheck c = true
  courses_chk : ∀ c ∈ db.courses, courseCheck c = true
  timetable_chk : ∀ t ∈ db.timetable, timetableCheck t = true
  timetable_course_fk :
    ∀ t ∈ db.timetable, ∃ c ∈ db.courses, c.id = t.course_id
  timetable_faculty_fk :
    ∀ t ∈ db.timetable, ∃ p ∈ db.profiles, p.id = t.faculty_id
  timetable_room_fk :
    ∀ t ∈ db.timetable, ∃ r ∈ db.classrooms, r.id = t.room_id

theorem inv_init : Inv initDB := by
  constructor <;> decide

/-! ## Inversion lemmas for accepted writes -/

theorem forall_ne_of_any_beq_false {α β : Type} [BEq β] [LawfulBEq β]
    {l : List α} {key : α → β} {v : β}
    (h : (l.any fun x => key x == v) = false) : ∀ x ∈ l, key x ≠ v := by
  intro x hx heq
  have hf := List.any_eq_false.mp h x hx
  exact hf (by simp [heq])

theorem exists_of_any_beq_true {α β : Type} [BEq β] [LawfulBEq β]
    {l : List α} {key : α → β} {v : β}
    (h : (l.any fun x => key x == v) = true) : ∃ x ∈ l, key x = v := by
  rw [List.any_eq_true] at h
  obtain ⟨x, hx, he⟩ := h
  exact ⟨x, hx, by simpa using he⟩

theorem forall_ne_of_filter_any_false {α β : Type} [BEq β] [LawfulBEq β]
    {l : List α} {idk : α → Nat} {rid : Nat} {key : α → β} {v : β}
    (h : ((l.filter fun x => !(idk x == rid)).any fun x => key x == v)
        = false) :
    ∀ x ∈ l, idk x ≠ rid → key x ≠ v := by
  intro x hx hxr
  refine forall_ne_of_any_beq_false h x ?_
  rw [List.mem_filter]
  exact ⟨hx, by simp [hxr]⟩

theorem eq_of_uniqueBy_mem {α β : Type} {key : α → β} {l : List α}
    (h : UniqueBy key l) {a b : α} (ha : a ∈ l) (hb : b ∈ l)
    (hk : key a = key b) : a = b := by
  induction l with
  | nil => cases ha
  | cons c t ih =>
    have h' := List.pairwise_cons.mp h
    cases ha with
    | head =>
      cases hb with
      | head => rfl
      | tail _ hb' => exact absurd hk (h'.1 b hb')
    | tail _ ha' =>
      cases hb with
      | head => exact absurd hk.symm (h'.1 a ha')
      | tail _ hb' => exact ih h'.2 ha' hb'

theorem forall_mem_filter {α : Type} {l : List α} {p : α → Bool}
    {P : α → Prop} (h : ∀ x ∈ l, P x) : ∀ x ∈ l.filter p, P x :=
  fun x hx => h x (List.mem_filter.mp hx).1

theorem insertProfile_ok {db : DBState} {p : Profile} {db' : DBState}
    (h : insertProfile db p = Except.ok db') :
    db' = { db with profiles := db.profiles ++ [p] } ∧
    (db.profiles.any fun q => q.id == p.id) = false ∧
    (db.profiles.any fun q => q.user_id == p.user_id) = false ∧
    (db.authUsers.any fun u => u.id == p.user_id) = true := by
  unfold insertProfile at h
  split_ifs at h with h1 h2 h3
  injection h with h4
  exact ⟨h4.symm, by simpa using h1, by simpa using h2, by simpa using h3⟩

theorem insertClassroom_ok {db : DBState} {c : Classroom} {db' : DBState}
    (h : insertClassroom db c = Except.ok db') :
    db' = { db with classrooms := db.classrooms ++ [c] } ∧
    (db.classrooms.any fun d => d.id == c.id) = false ∧
    (db.classrooms.any fun d => d.room_name == c.room_name) = false ∧
    classroomCheck c = true := by
  unfold insertClassroom at h
  split_ifs at h with h1 h2 h3
  injection h with h4
  exact ⟨h4.symm, by simpa using h1, by simpa using h2, by simpa using h3⟩

theorem insertCourse_ok {db : DBState} {c : Course} {db' : DBState}
    (h : insertCourse db c = Except.ok db') :
    db' = { db with courses := db.courses ++ [c] } ∧
    (db.courses.any fun d => d.id == c.id) = false ∧
    (db.courses.any fun d => d.course_code == c.course_code) = false ∧
    courseCheck c = true := by
  unfold insertCourse at h
  split_ifs at h with h1 h2 h3
  injection h with h4
  exact ⟨h4.symm, by simpa using h1, by simpa using h2, by simpa using h3⟩

theorem insertTimetable_ok {db : DBState} {t : TimetableEntry} {db' : DBState}
    (h : insertTimetable db t = Except.ok db') :
    db' = { db with timetable := db.timetable ++ [t] } ∧
    (db.timetable.any fun s => s.id == t.id) = false ∧
    (db.courses.any fun c => c.id == t.course_id) = true ∧
    (db.profiles.any fun p => p.id == t.faculty_id) = true ∧
    (db.classrooms.any fun r => r.id == t.room_id) = true ∧
    timetableCheck t = true := by
  unfold insertTimetable at h
  split_ifs at h with h1 h2 h3 h4 h5
  injection h with h6
  exact ⟨h6.symm, by simpa using h1, by simpa using h2, by simpa using h3,
      by simpa using h4, by simpa using h5⟩

theorem insertFeedback_ok {db : DBState} {f : Feedback} {db' : DBState}
    (h : insertFeedback db f = Except.ok db') :
    db' = { db with feedback := db.feedback ++ [f] } ∧
    (db.feedback.any fun g => g.id == f.id) = false ∧
    (db.authUsers.any fun u => u.id == f.user_id) = true ∧
    feedbackCheck f = true := by
  unfold insertFeedback at h
  split_ifs at h with h1 h2 h3
  injection h with h4
  exact ⟨h4.symm, by simpa using h1, by simpa using h2, by simpa using h3⟩

theorem createAuthUser_ok {db : DBState} {u : AuthUser} {pid : RowId}
    {now : Timestamp} {db' : DBState}
    (h : createAuthUser db u pid now = Except.ok db') :
    (db.authUsers.any fun v => v.id == u.id) = false ∧
    insertProfile { db with authUsers := db.authUsers ++ [u] }
      (newUserProfile u pid now) = Except.ok db' := by
  unfold createAuthUser at h
  split_ifs at h with h1
  exact ⟨by simpa using h1, h⟩

theorem updateCourse_ok {db : DBState} {rid : RowId} {f : Course → Course}
    {now : Timestamp} {db' : DBState}
    (h : updateCourse db rid f now = Except.ok db') :
    (db.courses.find? (fun c => c.id == rid) = none ∧ db' = db) ∨
    ∃ old, db.courses.find? (fun c => c.id == rid) = some old ∧
      ((!((update_courses_updated_at (f old) now).id == old.id) &&
        db.timetable.any fun t => t.course_id == old.id) = false) ∧
      ((db.courses.filter fun c => !(c.id == rid)).any
        (fun c => c.id == (update_courses_updated_at (f old) now).id))
        = false ∧
      ((db.courses.filter fun c => !(c.id == rid)).any
        (fun c => c.course_code ==
          (update_courses_updated_at (f old) now).course_code)) = false ∧
      courseCheck (update_courses_updated_at (f old) now) = true ∧
      db' = { db with courses := db.courses.map fun c =>
        if c.id == rid then update_courses_updated_at (f old) now else c } := by
  unfold updateCourse at h
  split at h
  next hfind =>
    injection h with h0
    exact Or.inl ⟨hfind, h0.symm⟩
  next old hfind =>
    split_ifs at h with h1 h2 h3 h4
    injection h with h5
    exact Or.inr ⟨old, hfind, by simpa using h1, by simpa using h2,
      by simpa using h3, by simpa using h4, h5.symm⟩

theorem updateProfile_ok {db : DBState} {rid : RowId} {f : Profile → Profile}
    {now : Timestamp} {db' : DBState}
    (h : updateProfile db rid f now = Except.ok db') :
    (db.profiles.find? (fun p => p.id == rid) = none ∧ db' = db) ∨
    ∃ old, db.profiles.find? (fun p => p.id == rid) = some old ∧
      ((!((update_profiles_updated_at (f old) now).id == old.id) &&
        db.timetable.any fun t => t.faculty_id == old.id) = false) ∧
      ((db.profiles.filter fun p => !(p.id == rid)).any
        (fun p => p.id == (update_profiles_updated_at (f old) now).id))
        = false ∧
      ((db.profiles.filter fun p => !(p.id == rid)).any
        (fun p => p.user_id ==
          (update_profiles_updated_at (f old) now).user_id)) = false ∧
      (db.authUsers.any
        (fun u => u.id == (update_profiles_updated_at (f old) now).user_id))
        = true ∧
      db' = { db with profiles := db.profiles.map fun p =>
        if p.id == rid then update_profiles_updated_at (f old) now else p } := by
  unfold updateProfile at h
  split at h
  next hfind =>
    injection h with h0
    exact Or.inl ⟨hfind, h0.symm⟩
  next old hfind =>
    split_ifs at h with h1 h2 h3 h4
    injection h with h5
    exact Or.inr ⟨old, hfind, by simpa using h1, by simpa using h2,
      by simpa using h3, by simpa using h4, h5.symm⟩

theorem updateClassroom_ok {db : DBState} {rid : RowId}
    {f : Classroom → Classroom} {now : Timestamp} {db' : DBState}
    (h : updateClassroom db rid f now = Except.ok db') :
    (db.classrooms.find? (fun c => c.id == rid) = none ∧ db' = db) ∨
    ∃ old, db.classrooms.find? (fun c => c.id == rid) = some old ∧
      ((!((update_classrooms_updated_at (f old) now).id == old.id) &&
        db.timetable.any fun t => t.room_id == old.id) = false) ∧
      ((db.classrooms.filter fun c => !(c.id == rid)).any
        (fun c => c.id == (update_classrooms_updated_at (f old) now).id))
        = false ∧
      ((db.classrooms.filter fun c => !(c.id == rid)).any
        (fun c => c.room_name ==
          (update_classrooms_updated_at (f old) now).room_name)) = false ∧
      classroomCheck (update_classrooms_updated_at (f old) now) = true ∧
      db' = { db with classrooms := db.classrooms.map fun c =>
        if c.id == rid then update_classrooms_updated_at (f old) now
        else c } := by
  unfold updateClassroom at h
  split at h
  next hfind =>
    injection h with h0
    exact Or.inl ⟨hfind, h0.symm⟩
  next old hfind =>
    split_ifs at h with h1 h2 h3 h4
    injection h with h5
    exact Or.inr ⟨old, hfind, by simpa using h1, by simpa using h2,
      by simpa using h3, by simpa using h4, h5.symm⟩

theorem updateTimetable_ok {db : DBState} {rid : RowId}
    {f : TimetableEntry → TimetableEntry} {now : Timestamp} {db' : DBState}
    (h : updateTimetable db rid f now = Except.ok db') :
    (db.timetable.find? (fun t => t.id == rid) = none ∧ db' = db) ∨
    ∃ old, db.timetable.find? (fun t => t.id == rid) = some old ∧
      ((db.timetable.filter fun t => !(t.id == rid)).any
        (fun t => t.id == (update_timetable_updated_at (f old) now).id))
        = false ∧
      (db.courses.any
        (fun c => c.id == (update_timetable_updated_at (f old) now).course_id))
        = true ∧
      (db.profiles.any
        (fun p =>
          p.id == (update_timetable_updated_at (f old) now).faculty_id))
        = true ∧
      (db.classrooms.any
        (fun r => r.id == (update_timetable_updated_at (f old) now).room_id))
        = true ∧
      timetableCheck (update_timetable_updated_at (f old) now) = true ∧
      db' = { db with timetable := db.timetable.map fun t =>
        if t.id == rid then update_timetable_updated_at (f old) now
        else t } := by
  unfold updateTimetable at h
  split at h
  next hfind =>
    injection h with h0
    exact Or.inl ⟨hfind, h0.symm⟩
  next old hfind =>
    split_ifs at h with h1 h2 h3 h4 h5
    injection h with h6
    exact Or.inr ⟨old, hfind, by simpa using h1, by simpa using h2,
      by simpa using h3, by simpa using h4, by simpa using h5, h6.symm⟩

theorem updateFeedback_ok {db : DBState} {rid : RowId}
    {f : Feedback → Feedback} {now : Timestamp} {db' : DBState}
    (h : updateFeedback db rid f now = Except.ok db') :
    (db.feedback.find? (fun g => g.id == rid) = none ∧ db' = db) ∨
    ∃ old, db.feedback.find? (fun g => g.id == rid) = some old ∧
      ((db.feedback.filter fun g => !(g.id == rid)).any
        (fun g => g.id == (update_feedback_updated_at (f old) now).id))
        = false ∧
      (db.authUsers.any
        (fun u => u.id == (update_feedback_updated_at (f old) now).user_id))
        = true ∧
      feedbackCheck (update_feedback_updated_at (f old) now) = true ∧
      db' = { db with feedback := db.feedback.map fun g =>
        if g.id == rid then update_feedback_updated_at (f old) now
        else g } := by
  unfold updateFeedback at h
  split at h
  next hfind =>
    injection h with h0
    exact Or.inl ⟨hfind, h0.symm⟩
  next old hfind =>
    split_ifs at h with h1 h2 h3
    injection h with h4
    exact Or.inr ⟨old, hfind, by simpa using h1, by simpa using h2,
      by simpa using h3, h4.symm⟩

/-! ## Preservation of the invariant -/

theorem inv_insertProfile {db : DBState} {p : Profile} {db' : DBState}
    (h : insertProfile db p = Except.ok db') (hinv : Inv db) : Inv db' := by
  obtain ⟨hdb, h1, h2, h3⟩ := insertProfile_ok h
  subst hdb
  refine ⟨?_, hinv.classrooms_pk, hinv.courses_pk, ?_,
    hinv.classrooms_name_uniq, hinv.courses_code_uniq, ?_,
    hinv.classrooms_chk, hinv.courses_chk, hinv.timetable_chk,
    hinv.timetable_course_fk, ?_, hinv.timetable_room_fk⟩
  · exact uniqueBy_append_singleton hinv.profiles_pk
      (forall_ne_of_any_beq_false h1)
  · exact uniqueBy_append_singleton hinv.profiles_user_uniq
      (forall_ne_of_any_beq_false h2)
  · intro q hq
    rw [List.mem_append] at hq
    cases hq with
    | inl hq => exact hinv.profiles_fk q hq
    | inr hq =>
      rw [List.mem_singleton] at hq
      subst hq
      exact exists_of_any_beq_true h3
  · intro t ht
    obtain ⟨q, hq, hqe⟩ := hinv.timetable_faculty_fk t ht
    exact ⟨q, List.mem_append_left _ hq, hqe⟩

theorem inv_insertClassroom {db : DBState} {c : Classroom} {db' : DBState}
    (h : insertClassroom db c = Except.ok db') (hinv : Inv db) : Inv db' := by
  obtain ⟨hdb, h1, h2, h3⟩ := insertClassroom_ok h
  subst hdb
  refine ⟨hinv.profiles_pk, ?_, hinv.courses_pk, hinv.profiles_user_uniq,
    ?_, hinv.courses_code_uniq, hinv.profiles_fk, ?_, hinv.courses_chk,
    hinv.timetable_chk, hinv.timetable_course_fk, hinv.timetable_faculty_fk,
    ?_⟩
  · exact uniqueBy_append_singleton hinv.classrooms_pk
      (forall_ne_of_any_beq_false h1)
  · exact uniqueBy_append_singleton hinv.classrooms_name_uniq
      (forall_ne_of_any_beq_false h2)
  · intro d hd
    rw [List.mem_append] at hd
    cases hd with
    | inl hd => exact hinv.classrooms_chk d hd
    | inr hd =>
      rw [List.mem_singleton] at hd
      subst hd
      exact h3
  · intro t ht
    obtain ⟨r, hr, hre⟩ := hinv.timetable_room_fk t ht
    exact ⟨r, List.mem_append_left _ hr, hre⟩

theorem inv_insertCourse {db : DBState} {c : Course} {db' : DBState}
    (h : insertCourse db c = Except.ok db') (hinv : Inv db) : Inv db' := by
  obtain ⟨hdb, h1, h2, h3⟩ := insertCourse_ok h
  subst hdb
  refine ⟨hinv.profiles_pk, hinv.classrooms_pk, ?_, hinv.profiles_user_uniq,
    hinv.classrooms_name_uniq, ?_, hinv.profiles_fk, hinv.classrooms_chk,
    ?_, hinv.timetable_chk, ?_, hinv.timetable_faculty_fk,
    hinv.timetable_room_fk⟩
  · exact uniqueBy_append_singleton hinv.courses_pk
      (forall_ne_of_any_beq_false h1)
  · exact uniqueBy_append_singleton hinv.courses_code_uniq
      (forall_ne_of_any_beq_false h2)
  · intro d hd
    rw [List.mem_append] at hd
    cases hd with
    | inl hd => exact hinv.courses_chk d hd
    | inr hd =>
      rw [List.mem_singleton] at hd
      subst hd
      exact h3
  · intro t ht
    obtain ⟨d, hd, hde⟩ := hinv.timetable_course_fk t ht
    exact ⟨d, List.mem_append_left _ hd, hde⟩

theorem inv_insertTimetable {db : DBState} {t : TimetableEntry}
    {db' : DBState} (h : insertTimetable db t = Except.ok db')
    (hinv : Inv db) : Inv db' := by
  obtain ⟨hdb, _, h2, h3, h4, h5⟩ := insertTimetable_ok h
  subst hdb
  refine ⟨hinv.profiles_pk, hinv.classrooms_pk, hinv.courses_pk,
    hinv.profiles_user_uniq, hinv.classrooms_name_uniq,
    hinv.courses_code_uniq, hinv.profiles_fk, hinv.classrooms_chk,
    hinv.courses_chk, ?_, ?_, ?_, ?_⟩
  · intro s hs
    rw [List.mem_append] at hs
    cases hs with
    | inl hs => exact hinv.timetable_chk s hs
    | inr hs =>
      rw [List.mem_singleton] at hs
      subst hs
      exact h5
  · intro s hs
    rw [List.mem_append] at hs
    cases hs with
    | inl hs => exact hinv.timetable_course_fk s hs
    | inr hs =>
      rw [List.mem_singleton] at hs
      subst hs
      exact exists_of_any_beq_true h2
  · intro s hs
    rw [List.mem_append] at hs
    cases hs with
    | inl hs => exact hinv.timetable_faculty_fk s hs
    | inr hs =>
      rw [List.mem_singleton] at hs
      subst hs
      exact exists_of_any_beq_true h3
  · intro s hs
    rw [List.mem_append] at hs
    cases hs with
    | inl hs => exact hinv.timetable_room_fk s hs
    | inr hs =>
      rw [List.mem_singleton] at hs
      subst hs
      exact exists_of_any_beq_true h4

theorem inv_insertFeedback {db : DBState} {f : Feedback} {db' : DBState}
    (h : insertFeedback db f = Except.ok db') (hinv : Inv db) : Inv db' := by
  obtain ⟨hdb, -, -, -⟩ := insertFeedback_ok h
  subst hdb
  exact ⟨hinv.profiles_pk, hinv.classrooms_pk, hinv.courses_pk,
    hinv.profiles_user_uniq, hinv.classrooms_name_uniq,
    hinv.courses_code_uniq, hinv.profiles_fk, hinv.classrooms_chk,
    hinv.courses_chk, hinv.timetable_chk, hinv.timetable_course_fk,
    hinv.timetable_faculty_fk, hinv.timetable_room_fk⟩

theorem inv_createAuthUser {db : DBState} {u : AuthUser} {pid : RowId}
    {now : Timestamp} {db' : DBState}
    (h : createAuthUser db u pid now = Except.ok db') (hinv : Inv db) :
    Inv db' := by
  obtain ⟨-, h1⟩ := createAuthUser_ok h
  refine inv_insertProfile h1 ?_
  refine ⟨hinv.profiles_pk, hinv.classrooms_pk, hinv.courses_pk,
    hinv.profiles_user_uniq, hinv.classrooms_name_uniq,
    hinv.courses_code_uniq, ?_, hinv.classrooms_chk, hinv.courses_chk,
    hinv.timetable_chk, hinv.timetable_course_fk,
    hinv.timetable_faculty_fk, hinv.timetable_room_fk⟩
  intro q hq
  obtain ⟨v, hv, hve⟩ := hinv.profiles_fk q hq
  exact ⟨v, List.mem_append_left _ hv, hve⟩

theorem inv_updateCourse {db : DBState} {rid : RowId} {f : Course → Course}
    {now : Timestamp} {db' : DBState}
    (h : updateCourse db rid f now = Except.ok db') (hinv : Inv db) :
    Inv db' := by
  rcases updateCourse_ok h with ⟨-, hdb⟩ | ⟨old, hfind, h1, h2, h3, h4, hdb⟩
  · subst hdb; exact hinv
  · subst hdb
    have hold_mem : old ∈ db.courses := List.mem_of_find?_eq_some hfind
    have hold_id : old.id = rid := by simpa using List.find?_some hfind
    refine ⟨hinv.profiles_pk, hinv.classrooms_pk, ?_,
      hinv.profiles_user_uniq, hinv.classrooms_name_uniq, ?_,
      hinv.profiles_fk, hinv.classrooms_chk, ?_, hinv.timetable_chk, ?_,
      hinv.timetable_faculty_fk, hinv.timetable_room_fk⟩
    · exact uniqueBy_update _ hinv.courses_pk hinv.courses_pk
        (forall_ne_of_filter_any_false h2)
    · exact uniqueBy_update _ hinv.courses_pk hinv.courses_code_uniq
        (forall_ne_of_filter_any_false h3)
    · intro c hc
      rw [List.mem_map] at hc
      obtain ⟨x, hx, rfl⟩ := hc
      by_cases hxr : x.id = rid
      · simpa [hxr] using h4
      · simpa [hxr] using hinv.courses_chk x hx
    · intro t ht
      obtain ⟨c0, hc0, hc0e⟩ := hinv.timetable_course_fk t ht
      by_cases hc0r : c0.id = rid
      · have heq : c0 = old := eq_of_uniqueBy_mem hinv.courses_pk hc0
          hold_mem (hc0r.trans hold_id.symm)
        subst heq
        by_cases hnewid : (update_courses_updated_at (f c0) now).id = c0.id
        · refine ⟨update_courses_updated_at (f c0) now, ?_, ?_⟩
          · rw [List.mem_map]
            exact ⟨c0, hc0, by simp [hc0r]⟩
          · rw [hnewid]; exact hc0e
        · exfalso
          have hany : (db.timetable.any fun s => s.course_id == c0.id)
              = false := by
            have hne : ((update_courses_updated_at (f c0) now).id == c0.id)
                = false := by simp [hnewid]
            simpa [hne] using h1
          exact forall_ne_of_any_beq_false hany t ht hc0e.symm
      · refine ⟨c0, ?_, hc0e⟩
        rw [List.mem_map]
        exact ⟨c0, hc0, by simp [hc0r]⟩

theorem inv_updateClassroom {db : DBState} {rid : RowId}
    {f : Classroom → Classroom} {now : Timestamp} {db' : DBState}
    (h : updateClassroom db rid f now = Except.ok db') (hinv : Inv db) :
    Inv db' := by
  rcases updateClassroom_ok h with ⟨-, hdb⟩ | ⟨old, hfind, h1, h2, h3, h4, hdb⟩
  · subst hdb; exact hinv
  · subst hdb
    have hold_mem : old ∈ db.classrooms := List.mem_of_find?_eq_some hfind
    have hold_id : old.id = rid := by simpa using List.find?_some hfind
    refine ⟨hinv.profiles_pk, ?_, hinv.courses_pk,
      hinv.profiles_user_uniq, ?_, hinv.courses_code_uniq,
      hinv.profiles_fk, ?_, hinv.courses_chk, hinv.timetable_chk,
      hinv.timetable_course_fk, hinv.timetable_faculty_fk, ?_⟩
    · exact uniqueBy_update _ hinv.classrooms_pk hinv.classrooms_pk
        (forall_ne_of_filter_any_false h2)
    · exact uniqueBy_update _ hinv.classrooms_pk hinv.classrooms_name_uniq
        (forall_ne_of_filter_any_false h3)
    · intro c hc
      rw [List.mem_map] at hc
      obtain ⟨x, hx, rfl⟩ := hc
      by_cases hxr : x.id = rid
      · simpa [hxr] using h4
      · simpa [hxr] using hinv.classrooms_chk x hx
    · intro t ht
      obtain ⟨r0, hr0, hr0e⟩ := hinv.timetable_room_fk t ht
      by_cases hr0r : r0.id = rid
      · have heq : r0 = old := eq_of_uniqueBy_mem hinv.classrooms_pk hr0
          hold_mem (hr0r.trans hold_id.symm)
        subst heq
        by_cases hnewid : (update_classrooms_updated_at (f r0) now).id = r0.id
        · refine ⟨update_classrooms_updated_at (f r0) now, ?_, ?_⟩
          · rw [List.mem_map]
            exact ⟨r0, hr0, by simp [hr0r]⟩
          · rw [hnewid]; exact hr0e
        · exfalso
          have hany : (db.timetable.any fun s => s.room_id == r0.id)
              = false := by
            have hne : ((update_classrooms_updated_at (f r0) now).id == r0.id)
                = false := by simp [hnewid]
            simpa [hne] using h1
          exact forall_ne_of_any_beq_false hany t ht hr0e.symm
      · refine ⟨r0, ?_, hr0e⟩
        rw [List.mem_map]
        exact ⟨r0, hr0, by simp [hr0r]⟩

theorem inv_updateProfile {db : DBState} {rid : RowId}
    {f : Profile → Profile} {now : Timestamp} {db' : DBState}
    (h : updateProfile db rid f now = Except.ok db') (hinv : Inv db) :
    Inv db' := by
  rcases updateProfile_ok h with ⟨-, hdb⟩ | ⟨old, hfind, h1, h2, h3, h4, hdb⟩
  · subst hdb; exact hinv
  · subst hdb
    have hold_mem : old ∈ db.profiles := List.mem_of_find?_eq_some hfind
    have hold_id : old.id = rid := by simpa using List.find?_some hfind
    refine ⟨?_, hinv.classrooms_pk, hinv.courses_pk, ?_,
      hinv.classrooms_name_uniq, hinv.courses_code_uniq, ?_,
      hinv.classrooms_chk, hinv.courses_chk, hinv.timetable_chk,
      hinv.timetable_course_fk, ?_, hinv.timetable_room_fk⟩
    · exact uniqueBy_update _ hinv.profiles_pk hinv.profiles_pk
        (forall_ne_of_filter_any_false h2)
    · exact uniqueBy_update _ hinv.profiles_pk hinv.profiles_user_uniq
        (forall_ne_of_filter_any_false h3)
    · intro q hq
      rw [List.mem_map] at hq
      obtain ⟨x, hx, rfl⟩ := hq
      by_cases hxr : x.id = rid
      · have := exists_of_any_beq_true h4
        simpa [hxr] using this
      · simpa [hxr] using hinv.profiles_fk x hx
    · intro t ht
      obtain ⟨p0, hp0, hp0e⟩ := hinv.timetable_faculty_fk t ht
      by_cases hp0r : p0.id = rid
      · have heq : p0 = old := eq_of_uniqueBy_mem hinv.profiles_pk hp0
          hold_mem (hp0r.trans hold_id.symm)
        subst heq
        by_cases hnewid : (update_profiles_updated_at (f p0) now).id = p0.id
        · refine ⟨update_profiles_updated_at (f p0) now, ?_, ?_⟩
          · rw [List.mem_map]
            exact ⟨p0, hp0, by simp [hp0r]⟩
          · rw [hnewid]; exact hp0e
        · exfalso
          have hany : (db.timetable.any fun s => s.faculty_id == p0.id)
              = false := by
            have hne : ((update_profiles_updated_at (f p0) now).id == p0.id)
                = false := by simp [hnewid]
            simpa [hne] using h1
          exact forall_ne_of_any_beq_false hany t ht hp0e.symm
      · refine ⟨p0, ?_, hp0e⟩
        rw [List.mem_map]
        exact ⟨p0, hp0, by simp [hp0r]⟩

theorem inv_updateTimetable {db : DBState} {rid : RowId}
    {f : TimetableEntry → TimetableEntry} {now : Timestamp} {db' : DBState}
    (h : updateTimetable db rid f now = Except.ok db') (hinv : Inv db) :
    Inv db' := by
  rcases updateTimetable_ok h with ⟨-, hdb⟩
    | ⟨old, hfind, h1, h2, h3, h4, h5, hdb⟩
  · subst hdb; exact hinv
  · subst hdb
    refine ⟨hinv.profiles_pk, hinv.classrooms_pk, hinv.courses_pk,
      hinv.profiles_user_uniq, hinv.classrooms_name_uniq,
      hinv.courses_code_uniq, hinv.profiles_fk, hinv.classrooms_chk,
      hinv.courses_chk, ?_, ?_, ?_, ?_⟩
    · intro s hs
      rw [List.mem_map] at hs
      obtain ⟨x, hx, rfl⟩ := hs
      by_cases hxr : x.id = rid
      · simpa [hxr] using h5
      · simpa [hxr] using hinv.timetable_chk x hx
    · intro s hs
      rw [List.mem_map] at hs
      obtain ⟨x, hx, rfl⟩ := hs
      by_cases hxr : x.id = rid
      · have := exists_of_any_beq_true h2
        simpa [hxr] using this
      · simpa [hxr] using hinv.timetable_course_fk x hx
    · intro s hs
      rw [List.mem_map] at hs
      obtain ⟨x, hx, rfl⟩ := hs
      by_cases hxr : x.id = rid
      · have := exists_of_any_beq_true h3
        simpa [hxr] using this
      · simpa [hxr] using hinv.timetable_faculty_fk x hx
    · intro s hs
      rw [List.mem_map] at hs
      obtain ⟨x, hx, rfl⟩ := hs
      by_cases hxr : x.id = rid
      · have := exists_of_any_beq_true h4
        simpa [hxr] using this
      · simpa [hxr] using hinv.timetable_room_fk x hx

theorem inv_updateFeedback {db : DBState} {rid : RowId}
    {f : Feedback → Feedback} {now : Timestamp} {db' : DBState}
    (h : updateFeedback db rid f now = Except.ok db') (hinv : Inv db) :
    Inv db' := by
  rcases updateFeedback_ok h with ⟨-, hdb⟩ | ⟨old, hfind, h1, h2, h3, hdb⟩ <;>
    subst hdb
  · exact hinv
  · exact ⟨hinv.profiles_pk, hinv.classrooms_pk, hinv.courses_pk,
      hinv.profiles_user_uniq, hinv.classrooms_name_uniq,
      hinv.courses_code_uniq, hinv.profiles_fk, hinv.classrooms_chk,
      hinv.courses_chk, hinv.timetable_chk, hinv.timetable_course_fk,
      hinv.timetable_faculty_fk, hinv.timetable_room_fk⟩

theorem inv_deleteClassroom {db : DBState} (rid : RowId) (hinv : Inv db) :
    Inv (deleteClassroom db rid) := by
  refine ⟨hinv.profiles_pk, uniqueBy_filter _ hinv.classrooms_pk,
    hinv.courses_pk, hinv.profiles_user_uniq,
    uniqueBy_filter _ hinv.classrooms_name_uniq, hinv.courses_code_uniq,
    hinv.profiles_fk, forall_mem_filter hinv.classrooms_chk,
    hinv.courses_chk, forall_mem_filter hinv.timetable_chk, ?_, ?_, ?_⟩
  · intro t ht
    exact hinv.timetable_course_fk t (List.mem_filter.mp ht).1
  · intro t ht
    exact hinv.timetable_faculty_fk t (List.mem_filter.mp ht).1
  · intro t ht
    have htl := List.mem_filter.mp ht
    obtain ⟨r, hr, hre⟩ := hinv.timetable_room_fk t htl.1
    have htr : t.room_id ≠ rid := by simpa using htl.2
    have hri : r.id ≠ rid := by rw [hre]; exact htr
    exact ⟨r, List.mem_filter.mpr ⟨hr, by simp [hri]⟩, hre⟩

theorem inv_deleteCourse {db : DBState} (rid : RowId) (hinv : Inv db) :
    Inv (deleteCourse db rid) := by
  refine ⟨hinv.profiles_pk, hinv.classrooms_pk,
    uniqueBy_filter _ hinv.courses_pk, hinv.profiles_user_uniq,
    hinv.classrooms_name_uniq, uniqueBy_filter _ hinv.courses_code_uniq,
    hinv.profiles_fk, hinv.classrooms_chk,
    forall_mem_filter hinv.courses_chk,
    forall_mem_filter hinv.timetable_chk, ?_, ?_, ?_⟩
  · intro t ht
    have htl := List.mem_filter.mp ht
    obtain ⟨c, hc, hce⟩ := hinv.timetable_course_fk t htl.1
    have htr : t.course_id ≠ rid := by simpa using htl.2
    have hci : c.id ≠ rid := by rw [hce]; exact htr
    exact ⟨c, List.mem_filter.mpr ⟨hc, by simp [hci]⟩, hce⟩
  · intro t ht
    exact hinv.timetable_faculty_fk t (List.mem_filter.mp ht).1
  · intro t ht
    exact hinv.timetable_room_fk t (List.mem_filter.mp ht).1

theorem inv_deleteProfile {db : DBState} (rid : RowId) (hinv : Inv db) :
    Inv (deleteProfile db rid) := by
  refine ⟨uniqueBy_filter _ hinv.profiles_pk, hinv.classrooms_pk,
    hinv.courses_pk, uniqueBy_filter _ hinv.profiles_user_uniq,
    hinv.classrooms_name_uniq, hinv.courses_code_uniq, ?_,
    hinv.classrooms_chk, hinv.courses_chk,
    forall_mem_filter hinv.timetable_chk, ?_, ?_, ?_⟩
  · intro p hp
    exact hinv.profiles_fk p (List.mem_filter.mp hp).1
  · intro t ht
    exact hinv.timetable_course_fk t (List.mem_filter.mp ht).1
  · intro t ht
    have htl := List.mem_filter.mp ht
    obtain ⟨p, hp, hpe⟩ := hinv.timetable_faculty_fk t htl.1
    have htr : t.faculty_id ≠ rid := by simpa using htl.2
    have hpi : p.id ≠ rid := by rw [hpe]; exact htr
    exact ⟨p, List.mem_filter.mpr ⟨hp, by simp [hpi]⟩, hpe⟩
  · intro t ht
    exact hinv.timetable_room_fk t (List.mem_filter.mp ht).1

theorem inv_deleteTimetableEntry {db : DBState} (rid : RowId)
    (hinv : Inv db) : Inv (deleteTimetableEntry db rid) := by
  refine ⟨hinv.profiles_pk, hinv.classrooms_pk, hinv.courses_pk,
    hinv.profiles_user_uniq, hinv.classrooms_name_uniq,
    hinv.courses_code_uniq, hinv.profiles_fk, hinv.classrooms_chk,
    hinv.courses_chk, forall_mem_filter hinv.timetable_chk, ?_, ?_, ?_⟩
  · intro t ht
    exact hinv.timetable_course_fk t (List.mem_filter.mp ht).1
  · intro t ht
    exact hinv.timetable_faculty_fk t (List.mem_filter.mp ht).1
  · intro t ht
    exact hinv.timetable_room_fk t (List.mem_filter.mp ht).1

theorem inv_deleteFeedback {db : DBState} (rid : RowId) (hinv : Inv db) :
    Inv (deleteFeedback db rid) :=
  ⟨hinv.profiles_pk, hinv.classrooms_pk, hinv.courses_pk,
    hinv.profiles_user_uniq, hinv.classrooms_name_uniq,
    hinv.courses_code_uniq, hinv.profiles_fk, hinv.classrooms_chk,
    hinv.courses_chk, hinv.timetable_chk, hinv.timetable_course_fk,
    hinv.timetable_faculty_fk, hinv.timetable_room_fk⟩

theorem inv_deleteAuthUser {db : DBState} (uid : UserId) (hinv : Inv db) :
    Inv (deleteAuthUser db uid) := by
  refine ⟨uniqueBy_filter _ hinv.profiles_pk, hinv.classrooms_pk,
    hinv.courses_pk, uniqueBy_filter _ hinv.profiles_user_uniq,
    hinv.classrooms_name_uniq, hinv.courses_code_uniq, ?_,
    hinv.classrooms_chk, hinv.courses_chk,
    forall_mem_filter hinv.timetable_chk, ?_, ?_, ?_⟩
  · intro p hp
    have hpl := List.mem_filter.mp hp
    obtain ⟨v, hv, hve⟩ := hinv.profiles_fk p hpl.1
    have hpu : p.user_id ≠ uid := by simpa using hpl.2
    have hvi : v.id ≠ uid := by rw [hve]; exact hpu
    exact ⟨v, List.mem_filter.mpr ⟨hv, by simp [hvi]⟩, hve⟩
  · intro t ht
    exact hinv.timetable_course_fk t (List.mem_filter.mp ht).1
  · intro t ht
    have htl := List.mem_filter.mp ht
    obtain ⟨p, hp, hpe⟩ := hinv.timetable_faculty_fk t htl.1
    have hnot : ((db.profiles.filter fun q => q.user_id == uid).any
        fun q => q.id == t.faculty_id) = false := by simpa using htl.2
    have hpu : p.user_id ≠ uid := by
      intro hc
      have hpin : p ∈ db.profiles.filter fun q => q.user_id == uid := by
        rw [List.mem_filter]
        exact ⟨hp, by simp [hc]⟩
      exact forall_ne_of_any_beq_false hnot p hpin hpe
    exact ⟨p, List.mem_filter.mpr ⟨hp, by simp [hpu]⟩, hpe⟩
  · intro t ht
    exact hinv.timetable_room_fk t (List.mem_filter.mp ht).1

theorem inv_step {db db' : DBState} (h : Step db db') (hinv : Inv db) :
    Inv db' := by
  cases h with
  | createUser _ _ _ _ h => exact inv_createAuthUser h hinv
  | insProfile _ _ h => exact inv_insertProfile h hinv
  | insClassroom _ _ h => exact inv_insertClassroom h hinv
  | insCourse _ _ h => exact inv_insertCourse h hinv
  | insTimetable _ _ h => exact inv_insertTimetable h hinv
  | insFeedback _ _ h => exact inv_insertFeedback h hinv
  | updProfile _ _ _ _ h => exact inv_updateProfile h hinv
  | updClassroom _ _ _ _ h => exact inv_updateClassroom h hinv
  | updCourse _ _ _ _ h => exact inv_updateCourse h hinv
  | updTimetable _ _ _ _ h => exact inv_updateTimetable h hinv
  | updFeedback _ _ _ _ h => exact inv_updateFeedback h hinv
  | delClassroom rid => exact inv_deleteClassroom rid hinv
  | delCourse rid => exact inv_deleteCourse rid hinv
  | delProfile rid => exact inv_deleteProfile rid hinv
  | delTimetable rid => exact inv_deleteTimetableEntry rid hinv
  | delFeedback rid => exact inv_deleteFeedback rid hinv
  | delAuthUser uid => exact inv_deleteAuthUser uid hinv

theorem inv_reachable {db : DBState} (h : Reachable db) : Inv db := by
  induction h with
  | init => exact inv_init
  | step db db' h hs ih => exact inv_step hs ih

/-! ## Concrete states used by witnesses and counterexamples -/

/-- A signup whose metadata supplies a name. -/
def leeUser : AuthUser :=
  { id := 100, email := "lee@example.edu", raw_name := some "Dr. Lee" }

/-- The state after `leeUser` signs up (identity row plus the
trigger-inserted profile). -/
def wDB1 : DBState :=
  { authUsers := [leeUser]
    profiles := [newUserProfile leeUser 11 1]
    classrooms := seedClassrooms
    courses := seedCourses
    timetable := []
    feedback := [] }

theorem wDB1_created : createAuthUser initDB leeUser 11 1 = Except.ok wDB1 :=
  rfl

theorem reachable_wDB1 : Reachable wDB1 :=
  Reachable.step _ _ Reachable.init
    (Step.createUser initDB leeUser 11 1 wDB1 wDB1_created)

/-- A feedback row owned by `leeUser`. -/
def wFeedback : Feedback :=
  { id := 20, user_id := 100, title := "Projector broken",
    message := "The projector in A101 does not turn on",
    status := some "pending", created_at := 2, updated_at := 2 }

/-- The state after `leeUser` files `wFeedback`. -/
def wDB2 : DBState := { wDB1 with feedback := [wFeedback] }

theorem wDB2_inserted : insertFeedback wDB1 wFeedback = Except.ok wDB2 :=
  rfl

theorem reachable_wDB2 : Reachable wDB2 :=
  Reachable.step _ _ reachable_wDB1
    (Step.insFeedback wDB1 wFeedback wDB2 wDB2_inserted)

/-! ## C1 -/

/-- C1 counterexample: in the reachable state `wDB2`, the feedback row
`wFeedback` is present and owned by identity 100, yet an update by that
very owner is denied — the policy layer defines no UPDATE policy for
feedback, so the claim that the owner's update "is permitted by the policy
layer" is false. -/
theorem feedback_owner_update_denied_cex :
    Reachable wDB2 ∧ wFeedback ∈ wDB2.feedback ∧ wFeedback.user_id = 100 ∧
    feedbackAllowed wDB2 100 Op.update wFeedback = false :=
  ⟨reachable_wDB2, List.mem_singleton.mpr rfl, rfl, rfl⟩

/-- C1 (amended): no update and no delete on feedback is permitted by the
policy layer for any requesting identity — the owner included — because
feedback has only select and insert policies; in particular no update or
delete policy beyond (or even including) the owner path exists. -/
theorem feedback_update_delete_denied (db : DBState) (uid : UserId)
    (row : Feedback) :
    feedbackAllowed db uid Op.update row = false ∧
    feedbackAllowed db uid Op.delete row = false :=
  ⟨rfl, rfl⟩

/-! ## C2 -/

/-- C2: a successfully committed identity creation appends exactly one
profile row — the one built by `handle_new_user` — and in the resulting
state exactly one profile belongs to the new identity; that profile has
role student, the identity's email, and the signup-metadata name when one
was supplied, the email otherwise. -/
theorem new_identity_single_student_profile (db : DBState)
    (h : Reachable db) (u : AuthUser) (pid : RowId) (now : Timestamp)
    (db' : DBState) (hok : createAuthUser db u pid now = Except.ok db') :
    db'.profiles = db.profiles ++ [newUserProfile u pid now] ∧
    (db'.profiles.filter fun p => p.user_id == u.id).length = 1 ∧
    ∀ p ∈ db'.profiles, p.user_id = u.id →
      p.role = UserRole.student ∧ p.email = u.email ∧
      p.name = u.raw_name.getD u.email := by
  obtain ⟨h0, h1⟩ := createAuthUser_ok hok
  obtain ⟨hdb, -, -, -⟩ := insertProfile_ok h1
  subst hdb
  have hinv := inv_reachable h
  have hnone : ∀ p ∈ db.profiles, p.user_id ≠ u.id := by
    intro p hp hc
    obtain ⟨v, hv, hve⟩ := hinv.profiles_fk p hp
    exact forall_ne_of_any_beq_false h0 v hv (hve.trans hc)
  refine ⟨rfl, ?_, ?_⟩
  · show ((db.profiles ++ [newUserProfile u pid now]).filter
      fun p => p.user_id == u.id).length = 1
    rw [List.filter_append]
    have hf1 : db.profiles.filter (fun p => p.user_id == u.id) = [] := by
      rw [List.filter_eq_nil_iff]
      intro p hp
      simpa using hnone p hp
    have hf2 : [newUserProfile u pid now].filter
        (fun p => p.user_id == u.id) = [newUserProfile u pid now] := by
      simp [newUserProfile]
    rw [hf1, hf2]
    rfl
  · intro p hp hpu
    have hp' : p ∈ db.profiles ++ [newUserProfile u pid now] := hp
    rw [List.mem_append] at hp'
    cases hp' with
    | inl hp' => exact absurd hpu (hnone p hp')
    | inr hp' =>
      rw [List.mem_singleton] at hp'
      subst hp'
      exact ⟨rfl, rfl, rfl⟩

/-- C2 witness: the concrete signup of `leeUser` from the migrated state. -/
theorem new_identity_single_student_profile_witness :
    wDB1.profiles = initDB.profiles ++ [newUserProfile leeUser 11 1] ∧
    (wDB1.profiles.filter fun p => p.user_id == leeUser.id).length = 1 ∧
    ∀ p ∈ wDB1.profiles, p.user_id = leeUser.id →
      p.role = UserRole.student ∧ p.email = leeUser.email ∧
      p.name = leeUser.raw_name.getD leeUser.email :=
  new_identity_single_student_profile initDB Reachable.init leeUser 11 1
    wDB1 wDB1_created

/-! ## C3 -/

/-- C3: an identity whose profile role is neither admin nor faculty is
denied insert/update/delete on classrooms, courses and timetable, while
its selects on all three tables succeed unconditionally; moreover for
classrooms and courses the non-select operations are gated exactly by the
admin subquery. -/
theorem non_privileged_writes_denied (db : DBState) (uid : UserId)
    (h : ∀ p ∈ db.profiles, p.user_id = uid →
      p.role ≠ UserRole.admin ∧ p.role ≠ UserRole.faculty) :
    (∀ op, op ≠ Op.select →
      (∀ row : Classroom, classroomsAllowed db uid op row = false) ∧
      (∀ row : Course, coursesAllowed db uid op row = false) ∧
      (∀ row : TimetableEntry, timetableAllowed db uid op row = false)) ∧
    (∀ row : Classroom, classroomsAllowed db uid Op.select row = true) ∧
    (∀ row : Course, coursesAllowed db uid Op.select row = true) ∧
    (∀ row : TimetableEntry, timetableAllowed db uid Op.select row = true) ∧
    (∀ op, op ≠ Op.select →
      (∀ row : Classroom, classroomsAllowed db uid op row = isAdmin db uid) ∧
      (∀ row : Course, coursesAllowed db uid op row = isAdmin db uid) ∧
      (∀ row : TimetableEntry,
        timetableAllowed db uid op row = isAdminOrFaculty db uid)) := by
  have hA : isAdmin db uid = false := by
    rw [isAdmin, List.any_eq_false]
    intro p hp
    simp only [Bool.and_eq_true, beq_iff_eq, not_and]
    intro hpu
    simpa using (h p hp hpu).1
  have hAF : isAdminOrFaculty db uid = false := by
    rw [isAdminOrFaculty, List.any_eq_false]
    intro p hp
    simp only [Bool.and_eq_true, Bool.or_eq_true, beq_iff_eq, not_and]
    intro hpu
    have := h p hp hpu
    simp only [not_or]
    exact ⟨by simpa using this.1, by simpa using this.2⟩
  refine ⟨?_, fun _ => rfl, fun _ => rfl, fun _ => rfl, ?_⟩
  · intro op hop
    cases op with
    | select => exact absurd rfl hop
    | insert => exact ⟨fun _ => hA, fun _ => hA, fun _ => hAF⟩
    | update => exact ⟨fun _ => hA, fun _ => hA, fun _ => hAF⟩
    | delete => exact ⟨fun _ => hA, fun _ => hA, fun _ => hAF⟩
  · intro op hop
    cases op with
    | select => exact absurd rfl hop
    | insert => exact ⟨fun _ => rfl, fun _ => rfl, fun _ => rfl⟩
    | update => exact ⟨fun _ => rfl, fun _ => rfl, fun _ => rfl⟩
    | delete => exact ⟨fun _ => rfl, fun _ => rfl, fun _ => rfl⟩

/-- C3 witness: identity 100 holds only the student profile created at
signup in `wDB1`. -/
theorem non_privileged_writes_denied_witness :
    (∀ op, op ≠ Op.select →
      (∀ row : Classroom, classroomsAllowed wDB1 100 op row = false) ∧
      (∀ row : Course, coursesAllowed wDB1 100 op row = false) ∧
      (∀ row : TimetableEntry, timetableAllowed wDB1 100 op row = false)) ∧
    (∀ row : Classroom, classroomsAllowed wDB1 100 Op.select row = true) ∧
    (∀ row : Course, coursesAllowed wDB1 100 Op.select row = true) ∧
    (∀ row : TimetableEntry, timetableAllowed wDB1 100 Op.select row = true) ∧
    (∀ op, op ≠ Op.select →
      (∀ row : Classroom,
        classroomsAllowed wDB1 100 op row = isAdmin wDB1 100) ∧
      (∀ row : Course, coursesAllowed wDB1 100 op row = isAdmin wDB1 100) ∧
      (∀ row : TimetableEntry,
        timetableAllowed wDB1 100 op row = isAdminOrFaculty wDB1 100)) :=
  non_privileged_writes_denied wDB1 100 (by decide)

/-! ## C6 -/

/-- C6: the feedback select predicate succeeds exactly for the row's owner
or an admin: the owner can select, an admin can select, and a non-owner
non-admin cannot. -/
theorem feedback_select_owner_or_admin (db : DBState) (uid : UserId)
    (row : Feedback) :
    (feedbackAllowed db uid Op.select row = true ↔
      uid = row.user_id ∨ isAdmin db uid = true) ∧
    (uid = row.user_id → feedbackAllowed db uid Op.select row = true) ∧
    (isAdmin db uid = true → feedbackAllowed db uid Op.select row = true) ∧
    (uid ≠ row.user_id → isAdmin db uid = false →
      feedbackAllowed db uid Op.select row = false) := by
  have hiff : feedbackAllowed db uid Op.select row = true ↔
      uid = row.user_id ∨ isAdmin db uid = true := by
    show (uid == row.user_id || isAdmin db uid) = true ↔ _
    simp
  refine ⟨hiff, fun h => hiff.mpr (Or.inl h), fun h => hiff.mpr (Or.inr h),
    ?_⟩
  intro h1 h2
  cases hval : feedbackAllowed db uid Op.select row with
  | false => rfl
  | true =>
    rcases hiff.mp hval with h | h
    · exact absurd h h1
    · rw [h2] at h
      exact Bool.noConfusion h

/-- C6 witness: owner identity 100 and the concrete row `wFeedback` in
`wDB2`. -/
theorem feedback_select_owner_or_admin_witness :
    (feedbackAllowed wDB2 100 Op.select wFeedback = true ↔
      100 = wFeedback.user_id ∨ isAdmin wDB2 100 = true) ∧
    (100 = wFeedback.user_id →
      feedbackAllowed wDB2 100 Op.select wFeedback = true) ∧
    (isAdmin wDB2 100 = true →
      feedbackAllowed wDB2 100 Op.select wFeedback = true) ∧
    (100 ≠ wFeedback.user_id → isAdmin wDB2 100 = false →
      feedbackAllowed wDB2 100 Op.select wFeedback = false) :=
  feedback_select_owner_or_admin wDB2 100 wFeedback

/-! ## C4 -/

/-- C4: in every reachable state every timetable entry satisfies
`end_time > start_time`, and any insert or update whose resulting row
would violate it is rejected (a rejected write returns `Except.error`, so
the state is unchanged). -/
theorem timetable_valid_time_range (db : DBState) (h : Reachable db) :
    (∀ t ∈ db.timetable, t.start_time < t.end_time) ∧
    (∀ e : TimetableEntry, e.end_time ≤ e.start_time →
      ∀ db', insertTimetable db e ≠ Except.ok db') ∧
    (∀ rid (f : TimetableEntry → TimetableEntry) now old,
      db.timetable.find? (fun t => t.id == rid) = some old →
      (f old).end_time ≤ (f old).start_time →
      ∀ db', updateTimetable db rid f now ≠ Except.ok db') := by
  have hinv := inv_reachable h
  refine ⟨?_, ?_, ?_⟩
  · intro t ht
    have := hinv.timetable_chk t ht
    simp only [timetableCheck, Bool.and_eq_true, decide_eq_true_eq] at this
    exact this.2
  · intro e he db' hok
    obtain ⟨-, -, -, -, -, hchk⟩ := insertTimetable_ok hok
    simp only [timetableCheck, Bool.and_eq_true, decide_eq_true_eq] at hchk
    exact absurd he (not_le.mpr hchk.2)
  · intro rid f now old hfind hle db' hok
    rcases updateTimetable_ok hok with ⟨hnone, -⟩
      | ⟨old2, hfind2, -, -, -, -, hchk, -⟩
    · rw [hfind] at hnone
      exact Option.noConfusion hnone
    · rw [hfind] at hfind2
      injection hfind2 with h2
      subst h2
      simp only [timetableCheck, update_timetable_updated_at,
        Bool.and_eq_true, decide_eq_true_eq] at hchk
      exact absurd hle (not_le.mpr hchk.2)

/-- C4 witness: the migrated initial state. -/
theorem timetable_valid_time_range_witness :
    (∀ t ∈ initDB.timetable, t.start_time < t.end_time) ∧
    (∀ e : TimetableEntry, e.end_time ≤ e.start_time →
      ∀ db', insertTimetable initDB e ≠ Except.ok db') ∧
    (∀ rid (f : TimetableEntry → TimetableEntry) now old,
      initDB.timetable.find? (fun t => t.id == rid) = some old →
      (f old).end_time ≤ (f old).start_time →
      ∀ db', updateTimetable initDB rid f now ≠ Except.ok db') :=
  timetable_valid_time_range initDB Reachable.init

/-! ## C7 -/

/-- C7: in every reachable state every timetable entry references an
existing course, profile and classroom, and deleting a course, profile or
classroom removes — in the same operation — exactly the timetable entries
referencing it, leaving all others in place. -/
theorem timetable_cascade_delete (db : DBState) (h : Reachable db) :
    (∀ t ∈ db.timetable,
      (∃ c ∈ db.courses, c.id = t.course_id) ∧
      (∃ p ∈ db.profiles, p.id = t.faculty_id) ∧
      (∃ r ∈ db.classrooms, r.id = t.room_id)) ∧
    (∀ cid (t : TimetableEntry),
      t ∈ (deleteCourse db cid).timetable ↔
        t ∈ db.timetable ∧ t.course_id ≠ cid) ∧
    (∀ pid (t : TimetableEntry),
      t ∈ (deleteProfile db pid).timetable ↔
        t ∈ db.timetable ∧ t.faculty_id ≠ pid) ∧
    (∀ rid (t : TimetableEntry),
      t ∈ (deleteClassroom db rid).timetable ↔
        t ∈ db.timetable ∧ t.room_id ≠ rid) ∧
    (∀ cid (c : Course),
      c ∈ (deleteCourse db cid).courses ↔ c ∈ db.courses ∧ c.id ≠ cid) := by
  have hinv := inv_reachable h
  refine ⟨?_, ?_, ?_, ?_, ?_⟩
  · intro t ht
    exact ⟨hinv.timetable_course_fk t ht, hinv.timetable_faculty_fk t ht,
      hinv.timetable_room_fk t ht⟩
  · intro cid t
    show t ∈ db.timetable.filter _ ↔ _
    rw [List.mem_filter]
    simp
  · intro pid t
    show t ∈ db.timetable.filter _ ↔ _
    rw [List.mem_filter]
    simp
  · intro rid t
    show t ∈ db.timetable.filter _ ↔ _
    rw [List.mem_filter]
    simp
  · intro cid c
    show c ∈ db.courses.filter _ ↔ _
    rw [List.mem_filter]
    simp

/-- C7 witness: the reachable state `wDB1`. -/
theorem timetable_cascade_delete_witness :
    (∀ t ∈ wDB1.timetable,
      (∃ c ∈ wDB1.courses, c.id = t.course_id) ∧
      (∃ p ∈ wDB1.profiles, p.id = t.faculty_id) ∧
      (∃ r ∈ wDB1.classrooms, r.id = t.room_id)) ∧
    (∀ cid (t : TimetableEntry),
      t ∈ (deleteCourse wDB1 cid).timetable ↔
        t ∈ wDB1.timetable ∧ t.course_id ≠ cid) ∧
    (∀ pid (t : TimetableEntry),
      t ∈ (deleteProfile wDB1 pid).timetable ↔
        t ∈ wDB1.timetable ∧ t.faculty_id ≠ pid) ∧
    (∀ rid (t : TimetableEntry),
      t ∈ (deleteClassroom wDB1 rid).timetable ↔
        t ∈ wDB1.timetable ∧ t.room_id ≠ rid) ∧
    (∀ cid (c : Course),
      c ∈ (deleteCourse wDB1 cid).courses ↔
        c ∈ wDB1.courses ∧ c.id ≠ cid) :=
  timetable_cascade_delete wDB1 reachable_wDB1

/-! ## C8 -/

/-- C8: in every reachable state profiles have pairwise-distinct owning
identities, classrooms pairwise-distinct names and courses
pairwise-distinct codes, and inserting a second profile for an identity
that already has one is rejected. -/
theorem unique_keys (db : DBState) (h : Reachable db) :
    db.profiles.Pairwise (fun a b => a.user_id ≠ b.user_id) ∧
    db.classrooms.Pairwise (fun a b => a.room_name ≠ b.room_name) ∧
    db.courses.Pairwise (fun a b => a.course_code ≠ b.course_code) ∧
    (∀ p : Profile, (∃ q ∈ db.profiles, q.user_id = p.user_id) →
      ∀ db', insertProfile db p ≠ Except.ok db') := by
  have hinv := inv_reachable h
  refine ⟨hinv.profiles_user_uniq, hinv.classrooms_name_uniq,
    hinv.courses_code_uniq, ?_⟩
  rintro p ⟨q, hq, hqe⟩ db' hok
  obtain ⟨-, -, h2, -⟩ := insertProfile_ok hok
  exact forall_ne_of_any_beq_false h2 q hq hqe

/-- C8 witness: the reachable state `wDB1` with its one profile. -/
theorem unique_keys_witness :
    wDB1.profiles.Pairwise (fun a b => a.user_id ≠ b.user_id) ∧
    wDB1.classrooms.Pairwise (fun a b => a.room_name ≠ b.room_name) ∧
    wDB1.courses.Pairwise (fun a b => a.course_code ≠ b.course_code) ∧
    (∀ p : Profile, (∃ q ∈ wDB1.profiles, q.user_id = p.user_id) →
      ∀ db', insertProfile wDB1 p ≠ Except.ok db') :=
  unique_keys wDB1 reachable_wDB1

/-! ## C5 -/

/-- C5: on each of the five tables the BEFORE-UPDATE trigger overwrites
exactly the `updated_at` column of the submitted row with `NOW()` (the
transaction start time, modelled by `now`), leaving every other column as
submitted; the resulting `updated_at` is ≥ any previous `updated_at`
value `prev` (the clock does not run backwards across committed
transactions: `prev ≤ now`) and ≥ the transaction start time. -/
theorem updated_at_trigger_frame (now prev : Timestamp) (hprev : prev ≤ now)
    (pNew : Profile) (cNew : Classroom) (crNew : Course)
    (tNew : TimetableEntry) (gNew : Feedback) :
    ((update_profiles_updated_at pNew now).updated_at = now ∧
      (update_profiles_updated_at pNew now).id = pNew.id ∧
      (update_profiles_updated_at pNew now).user_id = pNew.user_id ∧
      (update_profiles_updated_at pNew now).name = pNew.name ∧
      (update_profiles_updated_at pNew now).email = pNew.email ∧
      (update_profiles_updated_at pNew now).role = pNew.role ∧
      (update_profiles_updated_at pNew now).department = pNew.department ∧
      (update_profiles_updated_at pNew now).phone = pNew.phone ∧
      (update_profiles_updated_at pNew now).created_at = pNew.created_at ∧
      prev ≤ (update_profiles_updated_at pNew now).updated_at ∧
      now ≤ (update_profiles_updated_at pNew now).updated_at) ∧
    ((update_classrooms_updated_at cNew now).updated_at = now ∧
      (update_classrooms_updated_at cNew now).id = cNew.id ∧
      (update_classrooms_updated_at cNew now).room_name = cNew.room_name ∧
      (update_classrooms_updated_at cNew now).capacity = cNew.capacity ∧
      (update_classrooms_updated_at cNew now).equipment = cNew.equipment ∧
      (update_classrooms_updated_at cNew now).location = cNew.location ∧
      (update_classrooms_updated_at cNew now).availability_status =
        cNew.availability_status ∧
      (update_classrooms_updated_at cNew now).remarks = cNew.remarks ∧
      (update_classrooms_updated_at cNew now).created_at = cNew.created_at ∧
      prev ≤ (update_classrooms_updated_at cNew now).updated_at ∧
      now ≤ (update_classrooms_updated_at cNew now).updated_at) ∧
    ((update_courses_updated_at crNew now).updated_at = now ∧
      (update_courses_updated_at crNew now).id = crNew.id ∧
      (update_courses_updated_at crNew now).course_code = crNew.course_code ∧
      (update_courses_updated_at crNew now).course_name = crNew.course_name ∧
      (update_courses_updated_at crNew now).department = crNew.department ∧
      (update_courses_updated_at crNew now).credits = crNew.credits ∧
      (update_courses_updated_at crNew now).description = crNew.description ∧
      (update_courses_updated_at crNew now).created_at = crNew.created_at ∧
      prev ≤ (update_courses_updated_at crNew now).updated_at ∧
      now ≤ (update_courses_updated_at crNew now).updated_at) ∧
    ((update_timetable_updated_at tNew now).updated_at = now ∧
      (update_timetable_updated_at tNew now).id = tNew.id ∧
      (update_timetable_updated_at tNew now).course_id = tNew.course_id ∧
      (update_timetable_updated_at tNew now).faculty_id = tNew.faculty_id ∧
      (update_timetable_updated_at tNew now).room_id = tNew.room_id ∧
      (update_timetable_updated_at tNew now).day_of_week = tNew.day_of_week ∧
      (update_timetable_updated_at tNew now).start_time = tNew.start_time ∧
      (update_timetable_updated_at tNew now).end_time = tNew.end_time ∧
      (update_timetable_updated_at tNew now).semester = tNew.semester ∧
      (update_timetable_updated_at tNew now).academic_year =
        tNew.academic_year ∧
      (update_timetable_updated_at tNew now).created_at = tNew.created_at ∧
      prev ≤ (update_timetable_updated_at tNew now).updated_at ∧
      now ≤ (update_timetable_updated_at tNew now).updated_at) ∧
    ((update_feedback_updated_at gNew now).updated_at = now ∧
      (update_feedback_updated_at gNew now).id = gNew.id ∧
      (update_feedback_updated_at gNew now).user_id = gNew.user_id ∧
      (update_feedback_updated_at gNew now).title = gNew.title ∧
      (update_feedback_updated_at gNew now).message = gNew.message ∧
      (update_feedback_updated_at gNew now).status = gNew.status ∧
      (update_feedback_updated_at gNew now).created_at = gNew.created_at ∧
      prev ≤ (update_feedback_updated_at gNew now).updated_at ∧
      now ≤ (update_feedback_updated_at gNew now).updated_at) :=
  ⟨⟨rfl, rfl, rfl, rfl, rfl, rfl, rfl, rfl, rfl, hprev, le_refl now⟩,
    ⟨rfl, rfl, rfl, rfl, rfl, rfl, rfl, rfl, rfl, hprev, le_refl now⟩,
    ⟨rfl, rfl, rfl, rfl, rfl, rfl, rfl, rfl, hprev, le_refl now⟩,
    ⟨rfl, rfl, rfl, rfl, rfl, rfl, rfl, rfl, rfl, rfl, rfl, hprev,
      le_refl now⟩,
    ⟨rfl, rfl, rfl, rfl, rfl, rfl, rfl, hprev, le_refl now⟩⟩

/-- A classroom row used only to exercise the trigger functions. -/
def wClassroom : Classroom :=
  { id := 30, room_name := "Room Z101", capacity := 10, equipment := none,
    location := "Building Z", availability_status := some true,
    remarks := none, created_at := 3, updated_at := 3 }

/-- A course row used only to exercise the trigger functions. -/
def wCourse : Course :=
  { id := 31, course_code := "X1", course_name := "Example",
    department := "Example Dept", credits := some 3, description := none,
    created_at := 3, updated_at := 3 }

/-- A timetable row used only to exercise the trigger functions. -/
def wTimetable : TimetableEntry :=
  { id := 32, course_id := 6, faculty_id := 11, room_id := 1,
    day_of_week := "Monday", start_time := 540, end_time := 600,
    semester := "Fall", academic_year := "2025-2026", created_at := 3,
    updated_at := 3 }

/-- C5 witness: the trigger functions applied at `now = 5` to concrete
rows whose previous `updated_at` was 1. -/
theorem updated_at_trigger_frame_witness :
    ((update_profiles_updated_at (newUserProfile leeUser 11 1) 5).updated_at
        = 5 ∧
      (update_profiles_updated_at (newUserProfile leeUser 11 1) 5).id =
        (newUserProfile leeUser 11 1).id ∧
      (update_profiles_updated_at (newUserProfile leeUser 11 1) 5).user_id =
        (newUserProfile leeUser 11 1).user_id ∧
      (update_profiles_updated_at (newUserProfile leeUser 11 1) 5).name =
        (newUserProfile leeUser 11 1).name ∧
      (update_profiles_updated_at (newUserProfile leeUser 11 1) 5).email =
        (newUserProfile leeUser 11 1).email ∧
      (update_profiles_updated_at (newUserProfile leeUser 11 1) 5).role =
        (newUserProfile leeUser 11 1).role ∧
      (update_profiles_updated_at (newUserProfile leeUser 11 1) 5).department
        = (newUserProfile leeUser 11 1).department ∧
      (update_profiles_updated_at (newUserProfile leeUser 11 1) 5).phone =
        (newUserProfile leeUser 11 1).phone ∧
      (update_profiles_updated_at (newUserProfile leeUser 11 1) 5).created_at
        = (newUserProfile leeUser 11 1).created_at ∧
      1 ≤ (update_profiles_updated_at (newUserProfile leeUser 11 1)
        5).updated_at ∧
      5 ≤ (update_profiles_updated_at (newUserProfile leeUser 11 1)
        5).updated_at) ∧
    ((update_classrooms_updated_at wClassroom 5).updated_at = 5 ∧
      (update_classrooms_updated_at wClassroom 5).id = wClassroom.id ∧
      (update_classrooms_updated_at wClassroom 5).room_name =
        wClassroom.room_name ∧
      (update_classrooms_updated_at wClassroom 5).capacity =
        wClassroom.capacity ∧
      (update_classrooms_updated_at wClassroom 5).equipment =
        wClassroom.equipment ∧
      (update_classrooms_updated_at wClassroom 5).location =
        wClassroom.location ∧
      (update_classrooms_updated_at wClassroom 5).availability_status =
        wClassroom.availability_status ∧
      (update_classrooms_updated_at wClassroom 5).remarks =
        wClassroom.remarks ∧
      (update_classrooms_updated_at wClassroom 5).created_at =
        wClassroom.created_at ∧
      1 ≤ (update_classrooms_updated_at wClassroom 5).updated_at ∧
      5 ≤ (update_classrooms_updated_at wClassroom 5).updated_at) ∧
    ((update_courses_updated_at wCourse 5).updated_at = 5 ∧
      (update_courses_updated_at wCourse 5).id = wCourse.id ∧
      (update_courses_updated_at wCourse 5).course_code =
        wCourse.course_code ∧
      (update_courses_updated_at wCourse 5).course_name =
        wCourse.course_name ∧
      (update_courses_updated_at wCourse 5).department = wCourse.department ∧
      (update_courses_updated_at wCourse 5).credits = wCourse.credits ∧
      (update_courses_updated_at wCourse 5).description =
        wCourse.description ∧
      (update_courses_updated_at wCourse 5).created_at = wCourse.created_at ∧
      1 ≤ (update_courses_updated_at wCourse 5).updated_at ∧
      5 ≤ (update_courses_updated_at wCourse 5).updated_at) ∧
    ((update_timetable_updated_at wTimetable 5).updated_at = 5 ∧
      (update_timetable_updated_at wTimetable 5).id = wTimetable.id ∧
      (update_timetable_updated_at wTimetable 5).course_id =
        wTimetable.course_id ∧
      (update_timetable_updated_at wTimetable 5).faculty_id =
        wTimetable.faculty_id ∧
      (update_timetable_updated_at wTimetable 5).room_id =
        wTimetable.room_id ∧
      (update_timetable_updated_at wTimetable 5).day_of_week =
        wTimetable.day_of_week ∧
      (update_timetable_updated_at wTimetable 5).start_time =
        wTimetable.start_time ∧
      (update_timetable_updated_at wTimetable 5).end_time =
        wTimetable.end_time ∧
      (update_timetable_updated_at wTimetable 5).semester =
        wTimetable.semester ∧
      (update_timetable_updated_at wTimetable 5).academic_year =
        wTimetable.academic_year ∧
      (update_timetable_updated_at wTimetable 5).created_at =
        wTimetable.created_at ∧
      1 ≤ (update_timetable_updated_at wTimetable 5).updated_at ∧
      5 ≤ (update_timetable_updated_at wTimetable 5).updated_at) ∧
    ((update_feedback_updated_at wFeedback 5).updated_at = 5 ∧
      (update_feedback_updated_at wFeedback 5).id = wFeedback.id ∧
      (update_feedback_updated_at wFeedback 5).user_id = wFeedback.user_id ∧
      (update_feedback_updated_at wFeedback 5).title = wFeedback.title ∧
      (update_feedback_updated_at wFeedback 5).message = wFeedback.message ∧
      (update_feedback_updated_at wFeedback 5).status = wFeedback.status ∧
      (update_feedback_updated_at wFeedback 5).created_at =
        wFeedback.created_at ∧
      1 ≤ (update_feedback_updated_at wFeedback 5).updated_at ∧
      5 ≤ (update_feedback_updated_at wFeedback 5).updated_at) :=
  updated_at_trigger_frame 5 1 (by decide) (newUserProfile leeUser 11 1)
    wClassroom wCourse wTimetable wFeedback

/-! ## C9 -/

/-- A course insert that explicitly supplies NULL for `credits`. -/
def nullCreditsCourse : Course :=
  { id := 11, course_code := "NULL101", course_name := "Null Credits",
    department := "Misc", credits := none, description := none,
    created_at := 2, updated_at := 2 }

/-- The state after inserting `nullCreditsCourse` into the migrated
database. -/
def wDB3 : DBState := { initDB with courses := seedCourses ++ [nullCreditsCourse] }

theorem wDB3_inserted : insertCourse initDB nullCreditsCourse = Except.ok wDB3 :=
  rfl

theorem reachable_wDB3 : Reachable wDB3 :=
  Reachable.step _ _ Reachable.init
    (Step.insCourse initDB nullCreditsCourse wDB3 wDB3_inserted)

/-- C9 counterexample: the reachable state `wDB3` contains a course row
whose `credits` is NULL, so "every course row has credits > 0" fails —
the `CHECK (credits > 0)` does not reject NULL. -/
theorem course_credits_positive_cex :
    Reachable wDB3 ∧ nullCreditsCourse ∈ wDB3.courses ∧
    nullCreditsCourse.credits = none ∧
    ¬ (∀ db : DBState, Reachable db →
        ∀ c ∈ db.courses, ∃ k, c.credits = some k ∧ 0 < k) := by
  have hmem : nullCreditsCourse ∈ wDB3.courses :=
    List.mem_append_right _ (List.mem_singleton.mpr rfl)
  refine ⟨reachable_wDB3, hmem, rfl, ?_⟩
  intro hall
  obtain ⟨k, hk, -⟩ := hall wDB3 reachable_wDB3 nullCreditsCourse hmem
  exact Option.noConfusion hk

/-- C9 (amended): in every reachable state every classroom has
`capacity > 0` and every course whose `credits` is non-NULL has
`credits > 0`; an insert or update producing a non-NULL violating value is
rejected (NULL credits, however, are accepted — see the counterexample). -/
theorem positive_capacity_credits (db : DBState) (h : Reachable db) :
    (∀ c ∈ db.classrooms, 0 < c.capacity) ∧
    (∀ c ∈ db.courses, ∀ k, c.credits = some k → 0 < k) ∧
    (∀ c : Classroom, c.capacity ≤ 0 →
      ∀ db', insertClassroom db c ≠ Except.ok db') ∧
    (∀ c : Course, ∀ k, c.credits = some k → k ≤ 0 →
      ∀ db', insertCourse db c ≠ Except.ok db') ∧
    (∀ rid (f : Classroom → Classroom) now old,
      db.classrooms.find? (fun c => c.id == rid) = some old →
      (f old).capacity ≤ 0 →
      ∀ db', updateClassroom db rid f now ≠ Except.ok db') ∧
    (∀ rid (f : Course → Course) now old k,
      db.courses.find? (fun c => c.id == rid) = some old →
      (f old).credits = some k → k ≤ 0 →
      ∀ db', updateCourse db rid f now ≠ Except.ok db') := by
  have hinv := inv_reachable h
  refine ⟨?_, ?_, ?_, ?_, ?_, ?_⟩
  · intro c hc
    have := hinv.classrooms_chk c hc
    simpa [classroomCheck] using this
  · intro c hc k hk
    have hchk := hinv.courses_chk c hc
    simp only [courseCheck, hk, decide_eq_true_eq] at hchk
    exact hchk
  · intro c hcap db' hok
    obtain ⟨-, -, -, hchk⟩ := insertClassroom_ok hok
    simp only [classroomCheck, decide_eq_true_eq] at hchk
    exact absurd hcap (not_le.mpr hchk)
  · intro c k hk hle db' hok
    obtain ⟨-, -, -, hchk⟩ := insertCourse_ok hok
    simp only [courseCheck, hk, decide_eq_true_eq] at hchk
    exact absurd hle (not_le.mpr hchk)
  · intro rid f now old hfind hcap db' hok
    rcases updateClassroom_ok hok with ⟨hnone, -⟩
      | ⟨old2, hfind2, -, -, -, hchk, -⟩
    · rw [hfind] at hnone
      exact Option.noConfusion hnone
    · rw [hfind] at hfind2
      injection hfind2 with h2
      subst h2
      simp only [classroomCheck, update_classrooms_updated_at,
        decide_eq_true_eq] at hchk
      exact absurd hcap (not_le.mpr hchk)
  · intro rid f now old k hfind hk hle db' hok
    rcases updateCourse_ok hok with ⟨hnone, -⟩
      | ⟨old2, hfind2, -, -, -, hchk, -⟩
    · rw [hfind] at hnone
      exact Option.noConfusion hnone
    · rw [hfind] at hfind2
      injection hfind2 with h2
      subst h2
      simp only [courseCheck, update_courses_updated_at, hk,
        decide_eq_true_eq] at hchk
      exact absurd hle (not_le.mpr hchk)

/-- C9 (amended) witness: the migrated initial state. -/
theorem positive_capacity_credits_witness :
    (∀ c ∈ initDB.classrooms, 0 < c.capacity) ∧
    (∀ c ∈ initDB.courses, ∀ k, c.credits = some k → 0 < k) ∧
    (∀ c : Classroom, c.capacity ≤ 0 →
      ∀ db', insertClassroom initDB c ≠ Except.ok db') ∧
    (∀ c : Course, ∀ k, c.credits = some k → k ≤ 0 →
      ∀ db', insertCourse initDB c ≠ Except.ok db') ∧
    (∀ rid (f : Classroom → Classroom) now old,
      initDB.classrooms.find? (fun c => c.id == rid) = some old →
      (f old).capacity ≤ 0 →
      ∀ db', updateClassroom initDB rid f now ≠ Except.ok db') ∧
    (∀ rid (f : Course → Course) now old k,
      initDB.courses.find? (fun c => c.id == rid) = some old →
      (f old).credits = some k → k ≤ 0 →
      ∀ db', updateCourse initDB rid f now ≠ Except.ok db') :=
  positive_capacity_credits initDB Reachable.init

/-! ## C10 -/

/-- Modelled SQL DEFAULT application for `courses.credits`
(`credits INTEGER DEFAULT 3`): an INSERT either omits the column (outer
`none`: the declared default `3` applies) or supplies a value — possibly
an explicit NULL (`some none`), which is stored as NULL. -/
def creditsDefault (supplied : Option (Option Int)) : Option Int :=
  match supplied with
  | none => some 3
  | some v => v

/-- Modelled SQL DEFAULT application for `feedback.status`
(`status TEXT DEFAULT 'pending'`). -/
def statusDefault (supplied : Option (Option String)) : Option String :=
  match supplied with
  | none => some "pending"
  | some v => v

/-- A feedback insert that explicitly supplies NULL for `status`. -/
def nullStatusFeedback : Feedback :=
  { id := 21, user_id := 100, title := "No status",
    message := "Submitted with explicit NULL status", status := none,
    created_at := 2, updated_at := 2 }

/-- C10: NULL passes both the `credits > 0` and the
`status IN ('pending','reviewed','resolved')` CHECK constraints, so
inserts that explicitly supply NULL are accepted (shown concretely for
`nullCreditsCourse` and `nullStatusFeedback`), while the defaults `3` and
`'pending'` apply only when the column is omitted, not when NULL is
supplied. -/
theorem nullable_credits_and_status (c : Course) (g : Feedback)
    (hc : c.credits = none) (hg : g.status = none) :
    courseCheck c = true ∧ feedbackCheck g = true ∧
    creditsDefault none = some 3 ∧ creditsDefault (some none) = none ∧
    statusDefault none = some "pending" ∧
    statusDefault (some none) = none ∧
    insertCourse initDB nullCreditsCourse = Except.ok wDB3 ∧
    nullCreditsCourse ∈ wDB3.courses ∧
    insertFeedback wDB1 nullStatusFeedback =
      Except.ok { wDB1 with feedback := [nullStatusFeedback] } ∧
    nullStatusFeedback ∈
      ({ wDB1 with feedback := [nullStatusFeedback] } : DBState).feedback := by
  refine ⟨?_, ?_, rfl, rfl, rfl, rfl, wDB3_inserted,
    List.mem_append_right _ (List.mem_singleton.mpr rfl), rfl,
    List.mem_singleton.mpr rfl⟩
  · simp [courseCheck, hc]
  · simp [feedbackCheck, hg]

/-- C10 witness: the two concrete NULL-supplying rows. -/
theorem nullable_credits_and_status_witness :
    courseCheck nullCreditsCourse = true ∧
    feedbackCheck nullStatusFeedback = true ∧
    creditsDefault none = some 3 ∧ creditsDefault (some none) = none ∧
    statusDefault none = some "pending" ∧
    statusDefault (some none) = none ∧
    insertCourse initDB nullCreditsCourse = Except.ok wDB3 ∧
    nullCreditsCourse ∈ wDB3.courses ∧
    insertFeedback wDB1 nullStatusFeedback =
      Except.ok { wDB1 with feedback := [nullStatusFeedback] } ∧
    nullStatusFeedback ∈
      ({ wDB1 with feedback := [nullStatusFeedback] } : DBState).feedback :=
  nullable_credits_and_status nullCreditsCourse nullStatusFeedback rfl rfl

end SmartClassFlow
